import Mathlib

/-!
Verification development for the NFL stats tool-using agent
(`src/agent/agent.py`, `src/agent/tools.py`, `src/data/database.py`).

The Python code is shallowly embedded: Python runtime values are modelled by
`PyVal`, fallible Python code returns `Except String` (the error string models
the raised exception's rendered message; messages for type errors are
abbreviated, apostrophe-free renderings and no stated property depends on
their exact wording), and the external collaborators (the DuckDB backend, the
retrieval and news stores, the LLM) are parameters of the embedded functions.
-/

/-- Python runtime values as they occur in the agent code: `None`, booleans,
ints, floats (modelled as rationals), strings, lists and string-keyed dicts
(the only dicts the agent manipulates are JSON-object-shaped, so keys are
strings; a later duplicate key overwrites an earlier one on lookup). -/
inductive PyVal where
  | none
  | bool (b : Bool)
  | int (n : Int)
  | float (q : ℚ)
  | str (s : String)
  | list (xs : List PyVal)
  | dict (kvs : List (String × PyVal))

namespace PyVal

/-- Python truthiness: `None`, `False`, zero, empty strings and empty
containers are falsy, everything else truthy. -/
def truthy : PyVal → Bool
  | .none => false
  | .bool b => b
  | .int n => n ≠ 0
  | .float q => q ≠ 0
  | .str s => s ≠ ""
  | .list xs => !xs.isEmpty
  | .dict kvs => !kvs.isEmpty

/-- Python dict lookup: the value of the last binding of the key
(on `json.loads`, a later duplicate key overwrites an earlier one). -/
def lookupLast (kvs : List (String × PyVal)) (k : String) : Option PyVal :=
  match kvs with
  | [] => Option.none
  | (k', v) :: rest =>
    match lookupLast rest k with
    | Option.some w => Option.some w
    | Option.none => if k' = k then Option.some v else Option.none

/-- `d.get(k, default)` on a Python dict. -/
def dGet (kvs : List (String × PyVal)) (k : String) (dflt : PyVal) : PyVal :=
  match lookupLast kvs k with
  | Option.some v => v
  | Option.none => dflt

/-- `k in d` on a Python dict. -/
def hasKey (kvs : List (String × PyVal)) (k : String) : Bool :=
  (lookupLast kvs k).isSome

/-- Python `v == s` where `s` is a string literal: true only for equal
strings (no other built-in type compares equal to a `str`). -/
def eqStr (v : PyVal) (s : String) : Bool :=
  match v with
  | .str t => t = s
  | _ => false

/-- `hash(v)` succeeds. Of the values `json.loads` can produce, lists and
dicts are unhashable, so using one as the needle of a dict membership test
(`v in d`) raises `TypeError` instead of answering. -/
def hashable : PyVal → Bool
  | .list _ => false
  | .dict _ => false
  | _ => true

/-- Python `v == 0`: `0`, `0.0` and `False` are all equal to zero. -/
def eqZero (v : PyVal) : Bool :=
  match v with
  | .int n => n = 0
  | .float q => q = 0
  | .bool b => !b
  | _ => false

/-- `isinstance(v, (int, float))`; Python `bool` is a subclass of `int`. -/
def isNumeric (v : PyVal) : Bool :=
  match v with
  | .int _ => true
  | .float _ => true
  | .bool _ => true
  | _ => false

/-- The rational value of a numeric `PyVal` (`True` counts as 1). -/
def toRat : PyVal → ℚ
  | .int n => (n : ℚ)
  | .float q => q
  | .bool b => if b then 1 else 0
  | _ => 0

/-- Render an integer with thousands separators, as Python format spec
`:,` does for non-negative and negative integers. -/
def commaGroups (s : List Char) : List Char :=
  if _h : s.length ≤ 3 then s
  else
    commaGroups (s.take (s.length - 3)) ++ (',' :: s.drop (s.length - 3))
termination_by s.length
decreasing_by
  simp [List.length_take]
  omega

/-- Python `format(v, ",")` for an `int` (also used by `bool`, which
formats via `int`); other details of float formatting are irrelevant to
every stated property. -/
def formatCommaInt (n : Int) : String :=
  if n < 0 then String.mk ('-' :: commaGroups (toString (-n).toNat).data)
  else String.mk (commaGroups (toString n.toNat).data)

end PyVal

/-! ## String scanning utilities (shared by the regex-like searches) -/

/-- First index at or after position `i` where `needle` occurs in `hay`
(both as character lists), or `none`. -/
def findSubFrom (hay needle : List Char) (i : Nat) : Option Nat :=
  match hay with
  | [] => if needle.isEmpty then Option.some i else Option.none
  | _ :: t =>
    if needle.isPrefixOf hay then Option.some i else findSubFrom t needle (i + 1)

/-- First index of character `c` in `cs`, or `none` (Python `str.find`). -/
def findCharFrom (cs : List Char) (c : Char) (i : Nat) : Option Nat :=
  match cs with
  | [] => Option.none
  | d :: t => if d = c then Option.some i else findCharFrom t c (i + 1)

/-- Whether `sub` occurs somewhere in `full` (Python `sub in full`). -/
def strContainsSub (full sub : String) : Bool :=
  (findSubFrom full.data sub.data 0).isSome

/-- Characters matched by the regex class `\s` on the ASCII inputs the agent
handles: space, tab, newline, carriage return, form feed, vertical tab. -/
def reWs (c : Char) : Bool :=
  c = ' ' || c = '\t' || c = '\n' || c = '\r' || c = '\x0b' || c = '\x0c'

/-- Strip regex-`\s` whitespace from both ends (the effect of the greedy
leading and lazy-bounded trailing whitespace in the fence pattern). -/
def trimReWs (cs : List Char) : List Char :=
  ((cs.dropWhile reWs).reverse.dropWhile reWs).reverse

/-! ## Embedding of `json.loads` (strict JSON, as the `json` module parses it)

The parser is fuel-indexed so that it is structurally recursive; the fuel is
always instantiated large enough (twice the input length) that it never runs
out on a complete parse. -/

/-- JSON whitespace as skipped by `json.loads`: space, tab, newline, CR. -/
def jsonWs (c : Char) : Bool :=
  c = ' ' || c = '\t' || c = '\n' || c = '\r'

/-- Drop leading JSON whitespace. -/
def skipJsonWs (cs : List Char) : List Char :=
  cs.dropWhile jsonWs

/-- Parse the body of a JSON string after the opening quote, handling the
escape sequences `json.loads` accepts and rejecting unescaped control
characters, as the strict parser does. Returns the string and the rest. -/
def parseJString (fuel : Nat) (cs : List Char) : Option (String × List Char) :=
  match fuel with
  | 0 => Option.none
  | fuel + 1 =>
    match cs with
    | [] => Option.none
    | '"' :: rest => Option.some ("", rest)
    | '\\' :: e :: rest =>
      let cont (c : Char) : Option (String × List Char) :=
        match parseJString fuel rest with
        | Option.some (s, r) => Option.some (String.mk (c :: s.data), r)
        | Option.none => Option.none
      match e with
      | '"' => cont '"'
      | '\\' => cont '\\'
      | '/' => cont '/'
      | 'b' => cont '\x08'
      | 'f' => cont '\x0c'
      | 'n' => cont '\n'
      | 'r' => cont '\r'
      | 't' => cont '\t'
      | 'u' =>
        match rest with
        | a :: b :: c :: d :: rest' =>
          if a.isDigit && b.isDigit && c.isDigit && d.isDigit then
            match parseJString fuel rest' with
            | Option.some (s, r) =>
              let n := ((a.toNat - 48) * 16 + (b.toNat - 48)) * 16 * 16 +
                       (c.toNat - 48) * 16 + (d.toNat - 48)
              Option.some (String.mk (Char.ofNat n :: s.data), r)
            | Option.none => Option.none
          else Option.none
        | _ => Option.none
      | _ => Option.none
    | c :: rest =>
      if c.toNat < 32 then Option.none
      else
        match parseJString fuel rest with
        | Option.some (s, r) => Option.some (String.mk (c :: s.data), r)
        | Option.none => Option.none

/-- Digits of a JSON number component. -/
def takeDigits (cs : List Char) : List Char × List Char :=
  (cs.takeWhile Char.isDigit, cs.dropWhile Char.isDigit)

/-- Natural value of a digit list. -/
def digitsVal (ds : List Char) : Nat :=
  ds.foldl (fun acc c => acc * 10 + (c.toNat - 48)) 0

/-- Parse a JSON number (strict grammar: optional minus, integer part with no
leading zeros, optional fraction, optional exponent), yielding a Python `int`
when there is no fraction or exponent and a `float` otherwise, as
`json.loads` does. -/
def parseJNumber (cs : List Char) : Option (PyVal × List Char) :=
  let (neg, cs1) := match cs with
    | '-' :: t => (true, t)
    | _ => (false, cs)
  match cs1 with
  | [] => Option.none
  | c :: _ =>
    if !c.isDigit then Option.none
    else
      let (ipart, cs2) := takeDigits cs1
      if ipart.length > 1 && ipart.headD '0' = '0' then Option.none
      else
        let (fpart, cs3) := match cs2 with
          | '.' :: t =>
            let (ds, r) := takeDigits t
            if ds.isEmpty then ([], cs2) else (ds, r)
          | _ => ([], cs2)
        -- a dot not followed by digits is a parse error in strict JSON
        match cs2, fpart with
        | '.' :: _, [] => Option.none
        | _, _ =>
          let (expSign, expDigits, cs4) := match cs3 with
            | 'e' :: t | 'E' :: t =>
              let (sgn, t') := match t with
                | '+' :: u => (false, u)
                | '-' :: u => (true, u)
                | _ => (false, t)
              let (ds, r) := takeDigits t'
              if ds.isEmpty then (false, ([] : List Char), cs3) else (sgn, ds, r)
            | _ => (false, [], cs3)
          let hasExp := cs3 ≠ cs4
          let isFloat := !fpart.isEmpty || hasExp
          let mantissa : Int :=
            (if neg then -1 else 1) * (digitsVal ipart * 10 ^ fpart.length + digitsVal fpart)
          if !isFloat then
            Option.some (PyVal.int mantissa, cs3)
          else
            let e : Int := (if expSign then -(digitsVal expDigits : Int) else digitsVal expDigits)
              - fpart.length
            let q : ℚ :=
              if e ≥ 0 then Rat.divInt (mantissa * (10 : Int) ^ e.toNat) 1
              else Rat.divInt mantissa ((10 : Int) ^ (-e).toNat)
            Option.some (PyVal.float q, cs4)

/-- Expect a literal keyword (`null`, `true`, `false`). -/
def expectLit (lit : List Char) (cs : List Char) (v : PyVal) : Option (PyVal × List Char) :=
  if lit.isPrefixOf cs then Option.some (v, cs.drop lit.length) else Option.none

mutual

/-- Parse one JSON value (after skipping leading whitespace). -/
def parseJValue (fuel : Nat) (cs : List Char) : Option (PyVal × List Char) :=
  match fuel with
  | 0 => Option.none
  | fuel + 1 =>
    match skipJsonWs cs with
    | [] => Option.none
    | c :: rest =>
      if c = 'n' then expectLit "null".data (c :: rest) PyVal.none
      else if c = 't' then expectLit "true".data (c :: rest) (PyVal.bool true)
      else if c = 'f' then expectLit "false".data (c :: rest) (PyVal.bool false)
      else if c = '"' then
        match parseJString (rest.length + 1) rest with
        | Option.some (s, r) => Option.some (PyVal.str s, r)
        | Option.none => Option.none
      else if c = '[' then
        match skipJsonWs rest with
        | ']' :: r => Option.some (PyVal.list [], r)
        | _ =>
          match parseJArrayItems fuel rest with
          | Option.some (xs, r) => Option.some (PyVal.list xs, r)
          | Option.none => Option.none
      else if c = '{' then
        match skipJsonWs rest with
        | '}' :: r => Option.some (PyVal.dict [], r)
        | _ =>
          match parseJMembers fuel rest with
          | Option.some (kvs, r) => Option.some (PyVal.dict kvs, r)
          | Option.none => Option.none
      else parseJNumber (c :: rest)

/-- Parse the non-empty item list of a JSON array, up to and including the
closing bracket. -/
def parseJArrayItems (fuel : Nat) (cs : List Char) : Option (List PyVal × List Char) :=
  match fuel with
  | 0 => Option.none
  | fuel + 1 =>
    match parseJValue fuel cs with
    | Option.none => Option.none
    | Option.some (v, r) =>
      match skipJsonWs r with
      | ']' :: r' => Option.some ([v], r')
      | ',' :: r' =>
        match parseJArrayItems fuel r' with
        | Option.some (vs, r'') => Option.some (v :: vs, r'')
        | Option.none => Option.none
      | _ => Option.none

/-- Parse the non-empty member list of a JSON object, up to and including the
closing brace. -/
def parseJMembers (fuel : Nat) (cs : List Char) : Option (List (String × PyVal) × List Char) :=
  match fuel with
  | 0 => Option.none
  | fuel + 1 =>
    match skipJsonWs cs with
    | '"' :: rest =>
      match parseJString (rest.length + 1) rest with
      | Option.none => Option.none
      | Option.some (k, r) =>
        match skipJsonWs r with
        | ':' :: r' =>
          match parseJValue fuel r' with
          | Option.none => Option.none
          | Option.some (v, r'') =>
            match skipJsonWs r'' with
            | '}' :: r3 => Option.some ([(k, v)], r3)
            | ',' :: r3 =>
              match parseJMembers fuel r3 with
              | Option.some (kvs, r4) => Option.some ((k, v) :: kvs, r4)
              | Option.none => Option.none
            | _ => Option.none
        | _ => Option.none
    | _ => Option.none

end

/-- Embedding of `json.loads`: parse a complete JSON document; trailing
non-whitespace makes the parse fail (a `JSONDecodeError` in Python, `none`
here). -/
def jsonLoads (s : String) : Option PyVal :=
  match parseJValue (2 * s.data.length + 2) s.data with
  | Option.some (v, rest) => if (skipJsonWs rest).isEmpty then Option.some v else Option.none
  | Option.none => Option.none

/-! ## Embedding of `NFLStatsAgent._parse_tool_call` (agent.py lines 199-253) -/

/-- The regex search for a fenced block: the content captured by
`re.search(r'```json\s*(.*?)\s*```', response, re.DOTALL)` — the text between
the first occurrence of three backticks followed by `json` and the first
subsequent three backticks, with surrounding `\s` whitespace stripped
(the greedy leading `\s*` and the lazily bounded trailing `\s*`).
`none` when there is no such pair. -/
def fencedJsonContent (t : String) : Option String :=
  let cs := t.data
  match findSubFrom cs ("```json").data 0 with
  | Option.none => Option.none
  | Option.some i =>
    let after := cs.drop (i + 7)
    match findSubFrom after ("```").data 0 with
    | Option.none => Option.none
    | Option.some j => Option.some (String.mk (trimReWs (after.take j)))

/-- The brace-depth scan of strategy 2 (agent.py lines 231-241): starting
from the first opening brace, increment on each opening brace and decrement
on each closing brace (naively, inside string literals too, as the Python
loop does), stopping when depth returns to zero. Returns the balanced
substring, or `none` when the depth never returns to zero or there is no
opening brace. -/
def braceEnd (cs : List Char) (depth : Int) (pos : Nat) : Option Nat :=
  match cs with
  | [] => Option.none
  | c :: rest =>
    if c = '{' then braceEnd rest (depth + 1) (pos + 1)
    else if c = '}' then
      if depth - 1 = 0 then Option.some (pos + 1)
      else braceEnd rest (depth - 1) (pos + 1)
    else braceEnd rest depth (pos + 1)

/-- The substring strategy 2 feeds to `json.loads`: from the first `{`
through the matching (naively counted) `}`. -/
def braceSlice (t : String) : Option String :=
  let cs := t.data
  match findCharFrom cs '{' 0 with
  | Option.none => Option.none
  | Option.some s =>
    match braceEnd (cs.drop s) 0 s with
    | Option.none => Option.none
    | Option.some e => Option.some (String.mk ((cs.drop s).take (e - s)))

/-- Strategy 2 of the extractor: parse the first brace-balanced substring and
accept it only when the parsed object has a `tool` key. -/
def rawJsonToolCall (response : String) : Option PyVal :=
  match braceSlice response with
  | Option.none => Option.none
  | Option.some s =>
    match jsonLoads s with
    | Option.some v =>
      match v with
      | PyVal.dict kvs => if PyVal.hasKey kvs "tool" then Option.some v else Option.none
      | _ => Option.none
    | Option.none => Option.none

/-- Embedding of `NFLStatsAgent._parse_tool_call`: strategy 1 parses the
content of a ```json fenced block and returns the parsed value as-is (with
no check for a `tool` key); if there is no fence or its content fails to
parse, strategy 2 scans for a raw brace-balanced JSON object and accepts it
only when it has a `tool` key; otherwise there is no tool call. -/
def parse_tool_call (response : String) : Option PyVal :=
  match fencedJsonContent response with
  | Option.some content =>
    match jsonLoads content with
    | Option.some v => Option.some v
    | Option.none => rawJsonToolCall response
  | Option.none => rawJsonToolCall response

/-! ## Embedding of `NFLDatabase` (database.py): the write-pattern safety gate
and `execute_safe`. The DuckDB connection is abstracted as a `backend`
function from (sql, parameters) to either column names and rows or an engine
error message. -/

/-- A regex word character (`\w` for the ASCII SQL text the gate scans):
letters, digits, underscore. -/
def isWordChar (c : Char) : Bool :=
  c.isAlphanum || c = '_'

/-- Case-insensitive match of the lowercase keyword `kw` at the head of
`cs`, requiring a `\b` word boundary right after it. -/
def matchKwHere (kw cs : List Char) : Bool :=
  match kw, cs with
  | [], [] => true
  | [], c :: _ => !isWordChar c
  | _ :: _, [] => false
  | k :: ks, c :: rest => c.toLower = k && matchKwHere ks rest

/-- One left-to-right scan for a whole-word occurrence of `kw`;
`prevIsWord` records whether the previous character was a word character
(so that the position of a match sits at a `\b` boundary). -/
def scanWholeWord (kw : List Char) (prevIsWord : Bool) : List Char → Bool
  | [] => false
  | c :: rest =>
    (!prevIsWord && matchKwHere kw (c :: rest)) || scanWholeWord kw (isWordChar c) rest

/-- Whether the lowercase keyword occurs anywhere in `cs` as a whole word
(case-insensitively), exactly as `\bKW\b` matches somewhere. -/
def containsWholeWord (cs kw : List Char) : Bool :=
  scanWholeWord kw false cs

/-- The alternatives of `NFLDatabase.WRITE_PATTERNS`
(`\b(INSERT|UPDATE|DELETE|DROP|CREATE|ALTER|TRUNCATE|REPLACE|MERGE)\b`,
case-insensitive). -/
def WRITE_KEYWORDS : List String :=
  ["insert", "update", "delete", "drop", "create", "alter", "truncate", "replace", "merge"]

/-- Embedding of `NFLDatabase._is_write_query`: the case-insensitive
whole-word search of `WRITE_PATTERNS`. -/
def is_write_query (sql : String) : Bool :=
  WRITE_KEYWORDS.any (fun kw => containsWholeWord sql.data kw.data)

/-- Result from a database query (database.py `QueryResult`). -/
structure QueryResult where
  columns : List String
  rows : List (List PyVal)
  row_count : Nat

/-- `QueryResult.to_dicts`: `dict(zip(columns, row))` for each row (`zip`
truncates to the shorter side). -/
def QueryResult.to_dicts (qr : QueryResult) : List (List (String × PyVal)) :=
  qr.rows.map (fun row => List.zip qr.columns row)

/-- Errors `execute_safe` can raise: the `PermissionError` of the write gate
or a wrapped `duckdb.Error`. -/
inductive DBError where
  | permission (msg : String)
  | duckdb (msg : String)

/-- The exact `PermissionError` message raised by the gate. -/
def WRITE_BLOCK_MSG : String :=
  "Write operations (INSERT, UPDATE, DELETE, DROP, etc.) are not allowed. This database is read-only for safety."

/-- The DuckDB connection boundary: given sql text and parameters, either
(column names, rows) or an engine error message. -/
def DBBackend : Type :=
  String → List PyVal → Except String (List String × List (List PyVal))

/-- Embedding of `NFLDatabase.execute_safe` (database.py lines 111-157),
instrumented with a flag recording whether the backend connection was
reached: blocked write queries raise `PermissionError` before any backend
call; engine errors are re-raised wrapped as `Query execution failed:`. -/
def execute_safe (backend : DBBackend) (sql : String) (params : List PyVal) :
    Except DBError QueryResult × Bool :=
  if is_write_query sql then
    (Except.error (DBError.permission WRITE_BLOCK_MSG), false)
  else
    match backend sql params with
    | Except.ok (cols, rows) =>
      (Except.ok { columns := cols, rows := rows, row_count := rows.length }, true)
    | Except.error e =>
      (Except.error (DBError.duckdb ("Query execution failed: " ++ e)), true)

/-- Result from a tool execution (tools.py `ToolResult`). -/
structure ToolResult where
  success : Bool
  data : PyVal
  error : Option String

/-- Embedding of `SQLQueryTool.execute` (tools.py lines 98-112), instrumented
with the backend-reached flag of `execute_safe`. A non-string argument makes
the regex search inside `execute_safe` raise a `TypeError`, caught by the
tool's generic handler (message abbreviated). -/
def SQLQueryTool.execute (backend : DBBackend) (sql : PyVal) : ToolResult × Bool :=
  match sql with
  | PyVal.str s =>
    match execute_safe backend s [] with
    | (Except.error (DBError.permission m), called) =>
      ({ success := false, data := PyVal.none, error := Option.some m }, called)
    | (Except.error (DBError.duckdb m), called) =>
      ({ success := false, data := PyVal.none, error := Option.some ("Query failed: " ++ m) }, called)
    | (Except.ok qr, called) =>
      if qr.row_count = 0 then
        ({ success := true, data := PyVal.list [], error := Option.none }, called)
      else
        ({ success := true, data := PyVal.list (qr.to_dicts.map PyVal.dict), error := Option.none }, called)
  | _ =>
    ({ success := false, data := PyVal.none,
       error := Option.some "Query failed: TypeError: expected string or bytes-like object" }, false)

/-! ## Python value rendering

`str()` and `repr()` are modelled with a recursion-depth fuel so that the
definitions are structurally recursive. The fuel is far deeper than any value
the agent builds; no stated property depends on the rendering of values
nested beyond it. Float rendering is an approximation (floats are already
modelled as rationals); no stated property inspects a rendered float. -/

/-- Approximate rendering of a float (modelled as a rational). -/
def ratRepr (q : ℚ) : String :=
  if q.den = 1 then toString q.num ++ ".0"
  else toString q.num ++ "/" ++ toString q.den

/-- Python `repr()` with recursion fuel. -/
def pyReprF : Nat → PyVal → String
  | 0, _ => "..."
  | fuel + 1, v =>
    match v with
    | PyVal.none => "None"
    | PyVal.bool b => if b then "True" else "False"
    | PyVal.int n => toString n
    | PyVal.float q => ratRepr q
    | PyVal.str s => "\x27" ++ s ++ "\x27"
    | PyVal.list xs => "[" ++ String.intercalate ", " (xs.map (pyReprF fuel)) ++ "]"
    | PyVal.dict kvs =>
      "\x7b" ++ String.intercalate ", "
        (kvs.map (fun kv => "\x27" ++ kv.1 ++ "\x27: " ++ pyReprF fuel kv.2)) ++ "\x7d"

/-- Python `str()`: identity on strings, `repr`-like elsewhere. -/
def pyStr (v : PyVal) : String :=
  match v with
  | PyVal.str s => s
  | _ => pyReprF 100 v

/-! ## Python numeric and container primitives used by the calculator and
the fallback synthesizer. Operations that raise in Python return
`Except.error` with an abbreviated message.

Rational arithmetic is written with `Rat.divInt` and integer arithmetic on
numerators/denominators (extensionally the ordinary field operations of `ℚ`)
so that every concrete computation evaluates by kernel reduction. -/

/-- `a + b` on rationals via `Rat.divInt`. -/
def ratAdd (a b : ℚ) : ℚ :=
  Rat.divInt (a.num * (b.den : Int) + b.num * (a.den : Int)) ((a.den : Int) * (b.den : Int))

/-- `a - b` on rationals via `Rat.divInt`. -/
def ratSub (a b : ℚ) : ℚ :=
  Rat.divInt (a.num * (b.den : Int) - b.num * (a.den : Int)) ((a.den : Int) * (b.den : Int))

/-- `a * b` on rationals via `Rat.divInt`. -/
def ratMul (a b : ℚ) : ℚ :=
  Rat.divInt (a.num * b.num) ((a.den : Int) * (b.den : Int))

/-- `a / b` on rationals via `Rat.divInt` (0 for a zero divisor; every use
site checks the divisor first). -/
def ratDiv (a b : ℚ) : ℚ :=
  Rat.divInt (a.num * (b.den : Int)) ((a.den : Int) * b.num)

/-- `a < b` on rationals by cross-multiplication (denominators are
positive). -/
def ratLt (a b : ℚ) : Bool :=
  a.num * (b.den : Int) < b.num * (a.den : Int)

/-- `a = 0` on rationals. -/
def ratIsZero (a : ℚ) : Bool :=
  a.num = 0

/-- Python `a + b` (numeric tower only; `bool` adds as an int; a float on
either side makes the result a float; everything else is a `TypeError`,
which is what `sum` over non-numeric content raises). -/
def pyAdd (a b : PyVal) : Except String PyVal :=
  match a, b with
  | PyVal.float x, v =>
    if v.isNumeric then Except.ok (PyVal.float (ratAdd x v.toRat))
    else Except.error "TypeError: unsupported operand type(s) for +"
  | v, PyVal.float y =>
    if v.isNumeric then Except.ok (PyVal.float (ratAdd v.toRat y))
    else Except.error "TypeError: unsupported operand type(s) for +"
  | u, v =>
    if u.isNumeric && v.isNumeric then
      Except.ok (PyVal.int ((ratAdd u.toRat v.toRat).num))
    else Except.error "TypeError: unsupported operand type(s) for +"

/-- Python `a - b` on numerics. -/
def pySub (a b : PyVal) : Except String PyVal :=
  match a, b with
  | PyVal.float x, v =>
    if v.isNumeric then Except.ok (PyVal.float (ratSub x v.toRat))
    else Except.error "TypeError: unsupported operand type(s) for -"
  | v, PyVal.float y =>
    if v.isNumeric then Except.ok (PyVal.float (ratSub v.toRat y))
    else Except.error "TypeError: unsupported operand type(s) for -"
  | u, v =>
    if u.isNumeric && v.isNumeric then
      Except.ok (PyVal.int ((ratSub u.toRat v.toRat).num))
    else Except.error "TypeError: unsupported operand type(s) for -"

/-- Python true division `a / b`: always a float on numerics;
`ZeroDivisionError` on a zero divisor; `TypeError` otherwise. -/
def pyDivTrue (a b : PyVal) : Except String PyVal :=
  if a.isNumeric && b.isNumeric then
    if ratIsZero b.toRat then Except.error "ZeroDivisionError: division by zero"
    else Except.ok (PyVal.float (ratDiv a.toRat b.toRat))
  else Except.error "TypeError: unsupported operand type(s) for /"

/-- Python `v > 0`: numeric comparison; comparing a non-numeric value with
an int raises a `TypeError`. -/
def pyGtZero (v : PyVal) : Except String Bool :=
  if v.isNumeric then Except.ok (ratLt 0 v.toRat)
  else Except.error "TypeError: unorderable operand for > with int"

/-- Python `a < b` as used by `min`/`max`: numerics compare numerically,
strings lexicographically, everything else raises. -/
def pyLt (a b : PyVal) : Except String Bool :=
  match a, b with
  | PyVal.str x, PyVal.str y => Except.ok (decide (x < y))
  | u, v =>
    if u.isNumeric && v.isNumeric then Except.ok (ratLt u.toRat v.toRat)
    else Except.error "TypeError: unorderable operand for <"

/-- Python `len(v)`: defined on strings, lists and dicts. -/
def pyLen (v : PyVal) : Except String Nat :=
  match v with
  | PyVal.str s => Except.ok s.length
  | PyVal.list xs => Except.ok xs.length
  | PyVal.dict kvs => Except.ok kvs.length
  | _ => Except.error "TypeError: object has no len()"

/-- Python `v[i]` for a small non-negative literal index as the calculator
uses it: list indexing and one-character string slices; dict subscripting
with an int key raises `KeyError` unless such a key existed, which a
string-keyed dict never has. -/
def pyIndex (v : PyVal) (i : Nat) : Except String PyVal :=
  match v with
  | PyVal.list xs =>
    match xs.drop i with
    | x :: _ => Except.ok x
    | [] => Except.error "IndexError: list index out of range"
  | PyVal.str s =>
    match s.data.drop i with
    | c :: _ => Except.ok (PyVal.str (String.mk [c]))
    | [] => Except.error "IndexError: string index out of range"
  | PyVal.dict _ => Except.error "KeyError: int key"
  | _ => Except.error "TypeError: object is not subscriptable"

/-- Floor of a rational, written with integer floor-division so that it
evaluates by kernel reduction. -/
def ratFloor (q : ℚ) : Int :=
  Int.fdiv q.num q.den

/-- `10 ^ n` as a rational, via integer exponentiation (kernel-reducible). -/
def pow10 (n : Nat) : ℚ :=
  ((10 ^ n : Nat) : ℚ)

/-- Round half to even, as Python `round` does on the exact values the
claims exercise (the binary representation quirks of Python floats are
outside this model, which takes floats as rationals). -/
def roundHalfEven (q : ℚ) : Int :=
  let f : Int := ratFloor q
  let r : ℚ := ratSub q (Rat.divInt f 1)
  if ratLt r (Rat.divInt 1 2) then f
  else if ratLt (Rat.divInt 1 2) r then f + 1
  else if f % 2 = 0 then f else f + 1

/-- `round(x, n)` for a rational-modelled float. -/
def pyRoundDigits (q : ℚ) (n : Nat) : ℚ :=
  ratDiv (Rat.divInt (roundHalfEven (ratMul q (pow10 n))) 1) (pow10 n)

/-- Python `sum(values)` (builtin, start value 0): folds `+` over a list;
iterating a dict yields its keys; a non-iterable raises. -/
def pySum (v : PyVal) : Except String PyVal :=
  match v with
  | PyVal.list xs => xs.foldlM pyAdd (PyVal.int 0)
  | PyVal.dict kvs => (kvs.map (fun kv => PyVal.str kv.1)).foldlM pyAdd (PyVal.int 0)
  | PyVal.str _ => Except.error "TypeError: cannot sum strings"
  | _ => Except.error "TypeError: object is not iterable"

/-- Fold a comparison-based selection (`min` with `lt`, `max` with flipped
`lt`) over a non-empty element list. -/
def pySelectBy (keep : PyVal → PyVal → Except String Bool) (xs : List PyVal) :
    Except String PyVal :=
  match xs with
  | [] => Except.error "ValueError: empty sequence"
  | x :: rest =>
    rest.foldlM
      (fun best c => do
        let b ← keep c best
        pure (if b then c else best)) x

/-- The elements Python `min`/`max` iterate over: a list's items, a string's
characters, a dict's keys. -/
def pyIterElems (v : PyVal) : Except String (List PyVal) :=
  match v with
  | PyVal.list xs => Except.ok xs
  | PyVal.str s => Except.ok (s.data.map (fun c => PyVal.str (String.mk [c])))
  | PyVal.dict kvs => Except.ok (kvs.map (fun kv => PyVal.str kv.1))
  | _ => Except.error "TypeError: object is not iterable"

/-! ## Embedding of `CalculatorTool.execute` (tools.py lines 244-297) and the
`expression` sandbox semantics.

The `expression` branch runs `eval(str(values), ("__builtins__" : empty),
allowed_names)`. The Python expression parser is not modelled; `PyExpr`
is the abstract syntax such an input string parses to, and `pyEvalExpr`
models how `eval` evaluates it under those globals/locals: only *name*
resolution is restricted by the emptied builtins and the allow-list —
attribute access is evaluated unrestricted, on any object. -/

/-- Abstract syntax of the expressions `eval` accepts (the fragment relevant
to the sandbox-safety claim). -/
inductive PyExpr where
  | intLit (n : Int)
  | floatLit (q : ℚ)
  | name (s : String)
  | emptyTuple
  | binop (op : Char) (a b : PyExpr)
  | attr (e : PyExpr) (field : String)
  | call (f : PyExpr) (args : List PyExpr)

/-- Values arising while `eval` runs the sandboxed expression. `internal`
marks objects belonging to the interpreter's object system (classes, bound
dunder methods, their call results) reached through attribute traversal. -/
inductive EvalVal where
  | num (q : ℚ)
  | emptyTuple
  | builtinFn (s : String)
  | emptyDict
  | internal (descr : String)

/-- The allow-list the code passes as `eval`'s locals. -/
def ALLOWED_EVAL_NAMES : List String :=
  ["abs", "round", "min", "max"]

/-- Attribute access as CPython resolves it — unrestricted by `eval`'s
globals/locals: every object exposes `__class__`, and class objects expose
the introspection attributes that walk the object system. Attributes not in
this fragment are modelled as `AttributeError`; that under-approximation
only makes the reachability statement harder to prove. -/
def evalAttr (v : EvalVal) (f : String) : Except String EvalVal :=
  if f = "__class__" then
    Except.ok (EvalVal.internal ("class(" ++ (match v with
      | EvalVal.num _ => "number"
      | EvalVal.emptyTuple => "tuple"
      | EvalVal.builtinFn _ => "builtin_function"
      | EvalVal.emptyDict => "dict"
      | EvalVal.internal d => d) ++ ")"))
  else
    match v with
    | EvalVal.internal d =>
      if f = "__base__" || f = "__bases__" || f = "__subclasses__" ||
          f = "__mro__" || f = "__dict__" || f = "__globals__" || f = "__init__" then
        Except.ok (EvalVal.internal (d ++ "." ++ f))
      else Except.error "AttributeError"
    | _ => Except.error "AttributeError"

/-- Evaluation of a sandboxed expression (fuel-indexed for structural
recursion). Name lookup goes through `eval`'s locals (the allow-list) and
globals (whose only key is the emptied `__builtins__`); attribute access and
calls on reached objects are not filtered. Calling an introspection result
(such as a bound `__subclasses__` method) yields a further internal object;
arithmetic is ordinary on numbers. -/
def pyEvalExpr : Nat → PyExpr → Except String EvalVal
  | 0, _ => Except.error "RecursionError"
  | fuel + 1, e =>
    match e with
    | PyExpr.intLit n => Except.ok (EvalVal.num n)
    | PyExpr.floatLit q => Except.ok (EvalVal.num q)
    | PyExpr.emptyTuple => Except.ok EvalVal.emptyTuple
    | PyExpr.name s =>
      if ALLOWED_EVAL_NAMES.contains s then Except.ok (EvalVal.builtinFn s)
      else if s = "__builtins__" then Except.ok EvalVal.emptyDict
      else Except.error ("NameError: name " ++ s ++ " is not defined")
    | PyExpr.attr e' f => do
      let v ← pyEvalExpr fuel e'
      evalAttr v f
    | PyExpr.binop op a b => do
      let x ← pyEvalExpr fuel a
      let y ← pyEvalExpr fuel b
      match x, y with
      | EvalVal.num p, EvalVal.num q =>
        if op = '+' then Except.ok (EvalVal.num (ratAdd p q))
        else if op = '-' then Except.ok (EvalVal.num (ratSub p q))
        else if op = '*' then Except.ok (EvalVal.num (ratMul p q))
        else if op = '/' then
          if ratIsZero q then Except.error "ZeroDivisionError: division by zero"
          else Except.ok (EvalVal.num (ratDiv p q))
        else Except.error "SyntaxError"
      | _, _ => Except.error "TypeError: unsupported operand types"
    | PyExpr.call f args =>
      match fuel with
      | 0 => Except.error "RecursionError"
      | fuel' + 1 => do
        let fv ← pyEvalExpr fuel' f
        let avs ← args.mapM (pyEvalExpr fuel')
        match fv with
        | EvalVal.builtinFn s =>
          match s, avs with
          | "abs", [EvalVal.num q] => Except.ok (EvalVal.num (Rat.divInt (q.num.natAbs : Int) (q.den : Int)))
          | "round", [EvalVal.num q] => Except.ok (EvalVal.num (roundHalfEven q : ℚ))
          | "min", (EvalVal.num q) :: rest =>
            rest.foldlM
              (fun acc v => match acc, v with
                | EvalVal.num a, EvalVal.num b =>
                  Except.ok (EvalVal.num (if ratLt b a then b else a))
                | _, _ => Except.error "TypeError")
              (EvalVal.num q)
          | "max", (EvalVal.num q) :: rest =>
            rest.foldlM
              (fun acc v => match acc, v with
                | EvalVal.num a, EvalVal.num b =>
                  Except.ok (EvalVal.num (if ratLt a b then b else a))
                | _, _ => Except.error "TypeError")
              (EvalVal.num q)
          | _, _ => Except.error "TypeError: bad builtin call"
        | EvalVal.internal d => Except.ok (EvalVal.internal (d ++ "()"))
        | _ => Except.error "TypeError: object is not callable"

/-- Whether a sandbox evaluation result is an interpreter-internal object. -/
def EvalVal.isInternal : EvalVal → Bool
  | EvalVal.internal _ => true
  | _ => false

/-- The abstract syntax of the classic escape input
`().__class__.__base__.__subclasses__()`. -/
def escapeExprAst : PyExpr :=
  PyExpr.call
    (PyExpr.attr (PyExpr.attr (PyExpr.attr PyExpr.emptyTuple "__class__") "__base__")
      "__subclasses__")
    []

/-- `d.get(k, default)` called on an arbitrary value: raises when the value
is not a dict (the calculator and dispatch call `.get` inside `try`). -/
def pyGetOn (v : PyVal) (k : String) (dflt : PyVal) : Except String PyVal :=
  match v with
  | PyVal.dict kvs => Except.ok (PyVal.dGet kvs k dflt)
  | _ => Except.error "AttributeError: object has no attribute get"

/-- `s.upper()` on a string: uppercase every character. -/
def strUpper (s : String) : String :=
  String.mk (s.data.map Char.toUpper)

/-- `s.lower()` on a string: lowercase every character. -/
def strLower (s : String) : String :=
  String.mk (s.data.map Char.toLower)

/-- `s.upper()` on an arbitrary value (raises on non-strings). -/
def pyUpper (v : PyVal) : Except String String :=
  match v with
  | PyVal.str s => Except.ok (strUpper s)
  | _ => Except.error "AttributeError: object has no attribute upper"

/-- `s.lower()` on an arbitrary value (raises on non-strings). -/
def pyLower (v : PyVal) : Except String String :=
  match v with
  | PyVal.str s => Except.ok (strLower s)
  | _ => Except.error "AttributeError: object has no attribute lower"

/-- `round(result, 2) if isinstance(result, float) else result` — the
packaging step of every successful calculator operation. -/
def pyRound2 (v : PyVal) : PyVal :=
  match v with
  | PyVal.float q => PyVal.float (pyRoundDigits q 2)
  | _ => v

/-- The body of `CalculatorTool.execute`, before the catch-all handler.
`Except.error` models a raised exception; `Except.ok` with `success := false`
models the explicit early-failure returns. `evalOracle` stands for
`eval(str(values), emptied builtins, allow-list)` in the `expression`
branch. -/
def CalculatorTool.body (evalOracle : PyVal → Except String PyVal)
    (operation values : PyVal) : Except String ToolResult := do
  let pack (result : PyVal) : ToolResult :=
    { success := true,
      data := PyVal.dict [("result", pyRound2 result), ("operation", operation)],
      error := Option.none }
  let fail (msg : String) : ToolResult :=
    { success := false, data := PyVal.none, error := Option.some msg }
  if operation.eqStr "average" then
    if !values.truthy then
      pure (fail "No values provided")
    else do
      let s ← pySum values
      let n ← pyLen values
      let r ← pyDivTrue s (PyVal.int n)
      pure (pack r)
  else if operation.eqStr "sum" then do
    let s ← pySum values
    pure (pack s)
  else if operation.eqStr "min" then do
    let elems ← pyIterElems values
    let r ← pySelectBy pyLt elems
    pure (pack r)
  else if operation.eqStr "max" then do
    let elems ← pyIterElems values
    let r ← pySelectBy (fun c best => pyLt best c) elems
    pure (pack r)
  else if operation.eqStr "win_percentage" then do
    let wins ← pyGetOn values "wins" (PyVal.int 0)
    let losses ← pyGetOn values "losses" (PyVal.int 0)
    let total ← pyAdd wins losses
    let gt ← pyGtZero total
    if gt then do
      let d ← pyDivTrue wins total
      match d with
      | PyVal.float q => pure (pack (PyVal.float (pyRoundDigits (ratMul q 100) 1)))
      | _ => Except.error "TypeError: unsupported operand types"
    else
      pure (pack (PyVal.int 0))
  else if operation.eqStr "percent_change" then do
    let old ← pyGetOn values "old" (PyVal.int 0)
    let new ← pyGetOn values "new" (PyVal.int 0)
    if old.eqZero then
      pure (fail "Cannot calculate percent change from 0")
    else do
      let diff ← pySub new old
      let d ← pyDivTrue diff old
      match d with
      | PyVal.float q => pure (pack (PyVal.float (pyRoundDigits (ratMul q 100) 1)))
      | _ => Except.error "TypeError: unsupported operand types"
  else if operation.eqStr "divide" then do
    let n ← pyLen values
    if n ≠ 2 then
      pure (fail "Divide requires exactly 2 values")
    else do
      let v1 ← pyIndex values 1
      if v1.eqZero then
        pure (fail "Cannot divide by zero")
      else do
        let v0 ← pyIndex values 0
        let r ← pyDivTrue v0 v1
        pure (pack r)
  else if operation.eqStr "expression" then do
    let r ← evalOracle values
    pure (pack r)
  else
    pure (fail ("Unknown operation: " ++ pyStr operation))

/-- Embedding of `CalculatorTool.execute` (tools.py lines 244-297): the body
with its catch-all `except Exception` handler converting any raise into a
failure `ToolResult`. -/
def CalculatorTool.execute (evalOracle : PyVal → Except String PyVal)
    (operation values : PyVal) : ToolResult :=
  match CalculatorTool.body evalOracle operation values with
  | Except.ok r => r
  | Except.error e => { success := false, data := PyVal.none, error := Option.some e }

/-! ## Embedding of `PlayerStatsLookupTool.execute` (tools.py lines 141-210) -/

/-- The condition list and parameter list the tool builds from its
arguments. Truthy `opponent`/`season_type` values go through `.upper()`
(raising on non-strings); a truthy `season` is passed through as-is. -/
def playerStatsConds (player_name opponent season season_type : PyVal) :
    Except String (List String × List PyVal) := do
  let conds := ["player_display_name ILIKE ?"]
  let params := [PyVal.str ("%" ++ pyStr player_name ++ "%")]
  let (conds, params) ←
    if opponent.truthy then do
      let o ← pyUpper opponent
      pure (conds ++ ["opponent_team = ?"], params ++ [PyVal.str o])
    else pure (conds, params)
  let (conds, params) ←
    if season.truthy then
      pure (conds ++ ["season = ?"], params ++ [season])
    else pure (conds, params)
  let (conds, params) ←
    if season_type.truthy then do
      let st ← pyUpper season_type
      pure (conds ++ ["season_type = ?"], params ++ [PyVal.str st])
    else pure (conds, params)
  pure (conds, params)

/-- The per-game query text (the `games_sql` f-string, tools.py 169-178). -/
def games_sql (where_clause : String) : String :=
  "\n                SELECT season, week, season_type, team, opponent_team,\n                       passing_yards, passing_tds, passing_interceptions,\n                       rushing_yards, rushing_tds,\n                       receiving_yards, receiving_tds\n                FROM player_games\n                WHERE " ++ where_clause ++ "\n                ORDER BY season DESC, week DESC\n                LIMIT 30\n            "

/-- The aggregate query text (the `summary_sql` f-string, tools.py 182-198). -/
def summary_sql (where_clause : String) : String :=
  "\n                SELECT\n                    COUNT(*) as games_played,\n                    SUM(CASE WHEN passing_yards > 0 OR rushing_yards > 0 THEN 1 ELSE 0 END) as games_with_stats,\n                    ROUND(AVG(passing_yards), 1) as avg_passing_yards,\n                    SUM(passing_yards) as total_passing_yards,\n                    SUM(passing_tds) as total_passing_tds,\n                    SUM(passing_interceptions) as total_interceptions,\n                    ROUND(AVG(rushing_yards), 1) as avg_rushing_yards,\n                    SUM(rushing_yards) as total_rushing_yards,\n                    SUM(rushing_tds) as total_rushing_tds,\n                    ROUND(AVG(receiving_yards), 1) as avg_receiving_yards,\n                    SUM(receiving_yards) as total_receiving_yards,\n                    SUM(receiving_tds) as total_receiving_tds\n                FROM player_games\n                WHERE " ++ where_clause ++ "\n            "

/-- A raised `execute_safe` exception as the tool's `except Exception`
handler stringifies it. -/
def DBError.toMessage : DBError → String
  | DBError.permission m => m
  | DBError.duckdb m => m

/-- Embedding of `PlayerStatsLookupTool.execute`: build the filters, run the
games query and the summary query through `execute_safe`, and package the
summary row (or an empty dict when the summary query returned no rows), the
recent-game rows and the row count. Any raise is converted to a failure
result by the catch-all handler. -/
def PlayerStatsLookupTool.execute (db : DBBackend)
    (player_name opponent season season_type : PyVal) : ToolResult :=
  let body : Except String ToolResult := do
    let (conds, params) ← playerStatsConds player_name opponent season season_type
    let wc := String.intercalate " AND " conds
    let games ← (execute_safe db (games_sql wc) params).1.mapError DBError.toMessage
    let summary ← (execute_safe db (summary_sql wc) params).1.mapError DBError.toMessage
    pure
      { success := true,
        data := PyVal.dict
          [("summary",
            match summary.to_dicts with
            | d :: _ => if summary.rows.isEmpty then PyVal.dict [] else PyVal.dict d
            | [] => PyVal.dict []),
           ("recent_games", PyVal.list (games.to_dicts.map PyVal.dict)),
           ("total_games_found", PyVal.int games.row_count)],
        error := Option.none }
  match body with
  | Except.ok r => r
  | Except.error e => { success := false, data := PyVal.none, error := Option.some e }

/-! ## Embedding of `RankingsTool.execute` (tools.py lines 402-482)

The grouping, aggregation, `HAVING` filter, ordering and `LIMIT` of the
generated query are the DuckDB engine's evaluation of the SQL text built at
tools.py lines 454-467; they are embedded as a relational pipeline over the
`player_games` table. Ties in `ORDER BY` have no specified order in SQL; the
embedding fixes one admissible order (a stable sort). The generated text
contains no write keyword, so the `execute_safe` gate always passes it. -/

/-- A row of the `player_games` table as the rankings query reads it.
Stat columns are integer-valued (the float-typed fantasy columns are
abstracted as integers; no stated property depends on their float-ness). -/
structure GameRow where
  player_display_name : String
  position : String
  team : String
  season : Int
  season_type : String
  stat : String → Int

/-- Insert into a sorted list, keeping the existing order among elements
that compare no greater (a stable insertion). -/
def insertLe {α : Type} (le : α → α → Bool) (a : α) : List α → List α
  | [] => [a]
  | b :: bs => if le a b then a :: b :: bs else b :: insertLe le a bs

/-- Insertion sort by a boolean comparison. -/
def sortLe {α : Type} (le : α → α → Bool) : List α → List α
  | [] => []
  | a :: as => insertLe le a (sortLe le as)

/-- An aggregated group of the rankings query: one `GROUP BY
player_display_name, position, team` group with its summed stat and game
count. -/
structure AggRow where
  player : String
  position : String
  team : String
  total : Int
  games : Nat

/-- The distinct group keys of the filtered rows, in first-appearance
order. -/
def groupKeys (rows : List GameRow) : List (String × String × String) :=
  rows.foldl
    (fun acc r =>
      let k := (r.player_display_name, r.position, r.team)
      if acc.contains k then acc else acc ++ [k])
    []

/-- The rows of one group. -/
def rowsOfKey (rows : List GameRow) (k : String × String × String) : List GameRow :=
  rows.filter (fun r => (r.player_display_name, r.position, r.team) = k)

/-- Aggregate one group: `SUM(stat)` and `COUNT(*)`. -/
def aggOfKey (stat : String) (rows : List GameRow) (k : String × String × String) : AggRow :=
  let g := rowsOfKey rows k
  { player := k.1, position := k.2.1, team := k.2.2,
    total := (g.map (fun r => r.stat stat)).sum, games := g.length }

/-- The `WHERE` filter of the rankings query: season, season type and the
optional position filter. -/
def rankRowFilter (season : Int) (season_type : String) (position : Option String)
    (r : GameRow) : Bool :=
  r.season = season && r.season_type = season_type &&
    (match position with
     | Option.some p => r.position = p
     | Option.none => true)

/-- The `WHERE`-filtered rows of the rankings query. -/
def rankFiltered (table : List GameRow) (season : Int) (season_type : String)
    (position : Option String) : List GameRow :=
  table.filter (rankRowFilter season season_type position)

/-- The aggregated groups of the rankings query, in first-appearance
order. -/
def rankAggs (table : List GameRow) (stat : String) (season : Int)
    (season_type : String) (position : Option String) : List AggRow :=
  (groupKeys (rankFiltered table season season_type position)).map
    (aggOfKey stat (rankFiltered table season season_type position))

/-- The groups surviving the `HAVING count >= min_games AND SUM(stat) > 0`
filter. -/
def rankKept (table : List GameRow) (stat : String) (season : Int)
    (season_type : String) (position : Option String) (min_games : Int) : List AggRow :=
  (rankAggs table stat season season_type position).filter
    (fun a => (a.games : Int) ≥ min_games && a.total > 0)

/-- The full relational pipeline of the generated rankings query: filter,
group, aggregate, apply the `HAVING` filter, order by the summed stat in the
requested direction (stable), and truncate to `limit` rows. -/
def rankPipeline (table : List GameRow) (stat : String) (season : Int)
    (season_type : String) (position : Option String) (order : String)
    (min_games : Int) (limit : Nat) : List AggRow :=
  let le : AggRow → AggRow → Bool :=
    if order = "asc" then (fun a b => a.total ≤ b.total)
    else (fun a b => b.total ≤ a.total)
  (sortLe le (rankKept table stat season season_type position min_games)).take limit

/-- The `valid_stats` allow-list of the rankings tool. -/
def valid_stats : List String :=
  ["passing_yards", "passing_tds", "passing_interceptions",
   "rushing_yards", "rushing_tds", "carries",
   "receiving_yards", "receiving_tds", "receptions", "targets",
   "fantasy_points", "fantasy_points_ppr",
   "fg_made", "fg_att", "fg_long"]

/-- `", ".join(sorted(valid_stats))`, as interpolated into the invalid-stat
error message. -/
def valid_stats_sorted_joined : String :=
  "carries, fantasy_points, fantasy_points_ppr, fg_att, fg_long, fg_made, passing_interceptions, passing_tds, passing_yards, receiving_tds, receiving_yards, receptions, rushing_tds, rushing_yards, targets"

/-- The output row dict for rank `i` (1-based): the five selected columns in
select-list order, then the rank key appended by the Python loop — named
`rank` for descending order and `worst_rank` for ascending order
(tools.py line 474). -/
def rankRowDict (stat : String) (rank_label : String) (a : AggRow) (i : Nat) : PyVal :=
  PyVal.dict
    [("player", PyVal.str a.player),
     ("position", PyVal.str a.position),
     ("team", PyVal.str a.team),
     ("total_" ++ stat, PyVal.int a.total),
     ("games", PyVal.int a.games),
     (rank_label, PyVal.int i)]

/-- Embedding of `RankingsTool.execute`. Argument handling follows the
Python: the stat must be in the allow-list (a non-string never is); `order`
is lowercased (raising on non-strings, caught by the handler) and anything
other than `asc`/`desc` becomes `desc`; `season_type` is uppercased;
a truthy `position` is uppercased. A non-integer `season`, `limit` or
`min_games` reaches the engine and is modelled as an engine error; no
stated property concerns those cases. -/
def RankingsTool.execute (table : List GameRow) (stat season position limit
    season_type order min_games : PyVal) : ToolResult :=
  let body : Except String ToolResult := do
    if !(valid_stats.any (fun s => stat.eqStr s)) then
      pure { success := false, data := PyVal.none,
             error := Option.some ("Invalid stat: " ++ pyStr stat ++ ". Valid options: " ++
               valid_stats_sorted_joined) }
    else do
      let statS := pyStr stat
      let orderL ← pyLower order
      let order' := if orderL = "asc" || orderL = "desc" then orderL else "desc"
      let stype ← pyUpper season_type
      let pos ←
        if position.truthy then do
          let p ← pyUpper position
          pure (Option.some p)
        else pure Option.none
      match season, limit, min_games with
      | PyVal.int seasonI, PyVal.int limitI, PyVal.int minG =>
        if limitI < 0 then
          Except.error "Query execution failed: negative LIMIT"
        else
          let rows := rankPipeline table statS seasonI stype pos order' minG limitI.toNat
          let rank_label := if order' = "desc" then "rank" else "worst_rank"
          pure { success := true,
                 data := PyVal.list (rows.enum.map
                   (fun p => rankRowDict statS rank_label p.2 (p.1 + 1))),
                 error := Option.none }
      | _, _, _ => Except.error "Query execution failed: invalid parameter binding"
  match body with
  | Except.ok r => r
  | Except.error e => { success := false, data := PyVal.none, error := Option.some e }

/-! ## The search tools and the dispatch boundary
(`NFLStatsAgent._execute_tool`, agent.py lines 255-344) -/

/-- Embedding of `SemanticSearchTool.execute`: the retrieval pipeline and
its result formatting are an external collaborator, abstracted as an oracle
from (query, num_results) to the formatted result list or a raised error. -/
def SemanticSearchTool.execute (retrieve : PyVal → PyVal → Except String PyVal)
    (query num_results : PyVal) : ToolResult :=
  match retrieve query num_results with
  | Except.ok d => { success := true, data := d, error := Option.none }
  | Except.error e => { success := false, data := PyVal.none, error := Option.some e }

/-- The canned success payload `NewsSearchTool.execute` returns when the
store yields nothing truthy. -/
def NO_NEWS_DATA : PyVal :=
  PyVal.dict [("message",
    PyVal.str "No news found. Try fetching news first with: python -m src.news.storage --fetch")]

/-- Embedding of `NewsSearchTool.execute`: the news store is an oracle from
(query, source, team, num_results) to results; a falsy result is replaced by
the canned message payload, still as a success. -/
def NewsSearchTool.execute
    (search : PyVal → PyVal → PyVal → PyVal → Except String PyVal)
    (query source team num_results : PyVal) : ToolResult :=
  match search query source team num_results with
  | Except.ok d =>
    if !d.truthy then { success := true, data := NO_NEWS_DATA, error := Option.none }
    else { success := true, data := d, error := Option.none }
  | Except.error e => { success := false, data := PyVal.none, error := Option.some e }

/-- The external collaborators one agent run is wired to: the DuckDB
connection (used by the structured-query and player-stats tools), the
`player_games` table contents as the rankings query's engine evaluation sees
them, the retrieval and news oracles, and the `eval` oracle of the
calculator's `expression` branch. -/
structure AgentEnv where
  db : DBBackend
  table : List GameRow
  retrieve : PyVal → PyVal → Except String PyVal
  news : PyVal → PyVal → PyVal → PyVal → Except String PyVal
  evalOracle : PyVal → Except String PyVal

/-- The registry keys, in `get_all_tools` order (`self.tools`). -/
def KNOWN_TOOL_NAMES : List String :=
  ["sql_query", "player_stats", "calculator", "semantic_search", "rankings", "news_search"]

/-- `list(self.tools.keys())` as Python renders it inside the unknown-tool
message. -/
def KNOWN_TOOLS_REPR : String :=
  "[\x27sql_query\x27, \x27player_stats\x27, \x27calculator\x27, \x27semantic_search\x27, \x27rankings\x27, \x27news_search\x27]"

/-- The `sql` argument the dispatch passes to the structured-query tool:
`arguments.get("sql") or arguments.get("query") or ""` (agent.py line 289) —
Python `or` keeps the first truthy operand. -/
def sqlArgOf (kvs : List (String × PyVal)) : PyVal :=
  let a := PyVal.dGet kvs "sql" PyVal.none
  if a.truthy then a
  else
    let b := PyVal.dGet kvs "query" PyVal.none
    if b.truthy then b else PyVal.str ""

/-- The body of the dispatch `try` block (agent.py lines 284-337): extract
each tool's declared arguments from the open mapping (unknown keys ignored,
missing ones defaulted) and run the tool. `Except.error` models a raise
inside the block — including the `.get` calls on a non-dict `arguments`. -/
def execute_tool_body (env : AgentEnv) (tool_name arguments : PyVal) :
    Except String ToolResult := do
  if tool_name.eqStr "sql_query" then
    match arguments with
    | PyVal.dict kvs => pure (SQLQueryTool.execute env.db (sqlArgOf kvs)).1
    | _ => Except.error "AttributeError: object has no attribute get"
  else if tool_name.eqStr "player_stats" then do
    let pn ← pyGetOn arguments "player_name" (PyVal.str "")
    let opp ← pyGetOn arguments "opponent" PyVal.none
    let season ← pyGetOn arguments "season" PyVal.none
    let stype ← pyGetOn arguments "season_type" PyVal.none
    pure (PlayerStatsLookupTool.execute env.db pn opp season stype)
  else if tool_name.eqStr "calculator" then do
    let op ← pyGetOn arguments "operation" (PyVal.str "")
    let vals ← pyGetOn arguments "values" PyVal.none
    pure (CalculatorTool.execute env.evalOracle op vals)
  else if tool_name.eqStr "semantic_search" then do
    let q ← pyGetOn arguments "query" (PyVal.str "")
    let n ← pyGetOn arguments "num_results" (PyVal.int 5)
    pure (SemanticSearchTool.execute env.retrieve q n)
  else if tool_name.eqStr "rankings" then do
    let stat ← pyGetOn arguments "stat" (PyVal.str "")
    let season ← pyGetOn arguments "season" (PyVal.int 2024)
    let pos ← pyGetOn arguments "position" PyVal.none
    let limit ← pyGetOn arguments "limit" (PyVal.int 10)
    let stype ← pyGetOn arguments "season_type" (PyVal.str "REG")
    let order ← pyGetOn arguments "order" (PyVal.str "desc")
    let ming ← pyGetOn arguments "min_games" (PyVal.int 1)
    pure (RankingsTool.execute env.table stat season pos limit stype order ming)
  else if tool_name.eqStr "news_search" then do
    let q ← pyGetOn arguments "query" (PyVal.str "")
    let src ← pyGetOn arguments "source" PyVal.none
    let team ← pyGetOn arguments "team" PyVal.none
    let n ← pyGetOn arguments "num_results" (PyVal.int 5)
    pure (NewsSearchTool.execute env.news q src team n)
  else
    -- dead in practice: every registry name has a branch (agent.py lines 331-337)
    pure { success := false, data := PyVal.none,
           error := Option.some ("Tool \x27" ++ pyStr tool_name ++ "\x27 execution not implemented") }

/-- Embedding of `NFLStatsAgent._execute_tool`: the membership test
`tool_name not in self.tools` (agent.py line 274) runs outside the `try`
block and hashes the name first, so an unhashable name — a JSON list or
dict — raises `TypeError` out of the dispatch; a hashable non-registry name
(a hashable non-string is never a key) gets the known-names-listing
failure; and a registry name runs the matching branch inside the catch-all
that converts any raise into a failure `ToolResult`. The `.get` calls on
the top-level `tool_call` value also happen outside any handler, so a
non-dict `tool_call` raises out of the dispatch (`Except.error`). -/
def execute_tool (env : AgentEnv) (tool_call : PyVal) : Except String ToolResult :=
  match tool_call with
  | PyVal.dict kvs =>
    let tool_name := PyVal.dGet kvs "tool" PyVal.none
    let arguments := PyVal.dGet kvs "arguments" (PyVal.dict [])
    match tool_name with
    | PyVal.list _ => Except.error "TypeError: unhashable type: \x27list\x27"
    | PyVal.dict _ => Except.error "TypeError: unhashable type: \x27dict\x27"
    | _ =>
      if !(KNOWN_TOOL_NAMES.any (fun k => tool_name.eqStr k)) then
        Except.ok
          { success := false, data := PyVal.none,
            error := Option.some ("Unknown tool: " ++ pyStr tool_name ++ ". Available: " ++
              KNOWN_TOOLS_REPR) }
      else
        Except.ok
          (match execute_tool_body env tool_name arguments with
           | Except.ok r => r
           | Except.error e => { success := false, data := PyVal.none, error := Option.some e })
  | _ => Except.error "AttributeError: object has no attribute get"

/-! ## Embedding of `NFLStatsAgent._build_fallback_answer`
(agent.py lines 481-546)

`Except.error` models a raise escaping the synthesizer (it has no handler);
`Except.ok` is the returned answer string. -/

/-- One recorded tool call, with exactly the keys `run` stores (agent.py
lines 420-426): `result` is the tool's data on success and `None` otherwise;
`error` is the error string on failure and `None` otherwise. -/
structure ToolCallRecord where
  tool : PyVal
  arguments : PyVal
  result : PyVal
  error : PyVal
  success : Bool

/-- `f"{v:,}"` on the numeric values the synthesizer formats (ints and
bools; float comma-rendering is approximated — no stated property inspects
it); non-numerics raise a `ValueError`, though every call site guards with
`isinstance(v, (int, float))` first. -/
def formatComma (v : PyVal) : Except String String :=
  match v with
  | PyVal.int n => Except.ok (PyVal.formatCommaInt n)
  | PyVal.bool b => Except.ok (if b then "1" else "0")
  | PyVal.float q =>
    Except.ok (if q.den = 1 then PyVal.formatCommaInt q.num ++ ".0" else ratRepr q)
  | _ => Except.error "ValueError: cannot format value with spec ,"

/-- The generic messages of the synthesizer. -/
def NO_DATA_MSG : String :=
  "I couldn\x27t find relevant data to answer this question."

/-- Returned when the loop finds no branch to render. -/
def NO_CLEAR_ANSWER_MSG : String :=
  "I found some data but couldn\x27t determine a clear answer. Try rephrasing your question or being more specific."

/-- The first `total_`-prefixed numeric field of a rankings row, as the
`for key, value in first.items()` loop finds it. -/
def firstTotalStat (kvs : List (String × PyVal)) : Option (String × PyVal) :=
  kvs.find? (fun kv => kv.1.startsWith "total_" && kv.2.isNumeric)

/-- One iteration of the synthesizer loop on one record: `ok (some s)`
returns answer `s`, `ok none` falls through to the next record, `error`
models a raise. -/
def fallbackStep (tc : ToolCallRecord) : Except String (Option String) := do
  if !tc.success || !tc.result.truthy then
    pure Option.none
  else if tc.tool.eqStr "rankings" then
    match tc.result with
    | PyVal.list (first :: _) => do
      let player ← pyGetOn first "player" (PyVal.str "Unknown")
      match first with
      | PyVal.dict kvs =>
        match firstTotalStat kvs with
        | Option.some (key, value) => do
          let fmt ← formatComma value
          let stat_name := (key.replace "total_" "").replace "_" " "
          let games ← pyGetOn first "games" (PyVal.str "")
          let games_str := if games.truthy then " in " ++ pyStr games ++ " games" else ""
          pure (Option.some ("Based on the data, " ++ pyStr player ++ " led with " ++
            fmt ++ " " ++ stat_name ++ games_str ++ "."))
        | Option.none => pure Option.none
      | _ => Except.error "AttributeError: object has no attribute items"
    | _ => pure Option.none
  else if tc.tool.eqStr "player_stats" then
    match tc.result with
    | PyVal.dict rkvs => do
      let summary := PyVal.dGet rkvs "summary" (PyVal.dict [])
      if summary.truthy then do
        let player ← pyGetOn summary "player" (PyVal.str "The player")
        let games ← pyGetOn summary "games_played" (PyVal.int 0)
        let pass_yds ← pyGetOn summary "total_passing_yards" (PyVal.int 0)
        let pass_tds ← pyGetOn summary "total_passing_tds" (PyVal.int 0)
        let gt ← pyGtZero pass_yds
        if gt then do
          let fmt ← formatComma pass_yds
          pure (Option.some (pyStr player ++ " had " ++ fmt ++ " passing yards and " ++
            pyStr pass_tds ++ " touchdowns in " ++ pyStr games ++ " games."))
        else pure Option.none
      else pure Option.none
    | _ => pure Option.none
  else if tc.tool.eqStr "sql_query" then
    match tc.result with
    | PyVal.list (first :: _) =>
      match first with
      | PyVal.dict kvs =>
        let parts := kvs.filterMap (fun kv =>
          match kv.2 with
          | PyVal.none => Option.none
          | v => Option.some (kv.1 ++ ": " ++ pyStr v))
        if parts.isEmpty then pure Option.none
        else pure (Option.some ("Based on the data: " ++
          String.intercalate ", " (parts.take 5)))
      | _ => Except.error "AttributeError: object has no attribute items"
    | _ => pure Option.none
  else
    pure Option.none

/-- The synthesizer loop over the records. -/
def fallbackLoop : List ToolCallRecord → Except String String
  | [] => Except.ok NO_CLEAR_ANSWER_MSG
  | tc :: rest => do
    match ← fallbackStep tc with
    | Option.some s => pure s
    | Option.none => fallbackLoop rest

/-- Embedding of `NFLStatsAgent._build_fallback_answer`: the no-records
message, then the ordered rankings / player-stats / raw-query rendering, then
the generic message. -/
def build_fallback_answer (tool_calls : List ToolCallRecord) : Except String String :=
  if tool_calls.isEmpty then Except.ok NO_DATA_MSG
  else fallbackLoop tool_calls

/-! ## Embedding of `NFLStatsAgent.run` (agent.py lines 346-479)

The LLM backend is a parameter from the conversation to either a response
text or a raised transport error. The system prompt is a parameter as well:
its construction (tool descriptions plus the wall-clock-derived season
context) does not affect any stated property. The embedding is instrumented
with a count of model invocations. `Except.error` models an exception
propagating out of `run` — which the code lets happen for raises outside its
one `try` block around the LLM call. Wall-clock timing (`total_time_ms`) is
not modelled. -/

/-- One conversation message. -/
structure Message where
  role : String
  content : String

/-- The terminal artifact of one orchestration run (agent.py `AgentResponse`,
minus the wall-clock field). -/
structure AgentResponse where
  answer : String
  tool_calls : List ToolCallRecord
  thinking : List String
  iterations : Nat

/-- `NFLStatsAgent.MAX_ITERATIONS` (agent.py line 162). -/
def MAX_ITERATIONS : Nat := 4

/-- Rendering of a `ToolResult` for the follow-up prompt
(`ToolResult.to_string`, tools.py lines 31-49). The `json.dumps`
indentation and the 15-row truncation are approximated by the generic
rendering: the string only ever feeds the LLM parameter and no stated
property depends on it. -/
def ToolResult.to_string (r : ToolResult) : String :=
  if !r.success then
    "Error: " ++ (match r.error with | Option.some e => e | Option.none => "None")
  else
    match r.data with
    | PyVal.list xs => if xs.isEmpty then "No results found." else pyReprF 100 r.data
    | PyVal.dict _ => pyReprF 100 r.data
    | v => pyStr v

/-- The directive follow-up message after a success with data
(agent.py lines 434-440). -/
def followupSuccess (rendered : String) : String :=
  "Tool result:\n" ++ rendered ++
  "\n\nYou now have data to answer the question. Provide your final answer as a clear sentence using the numbers above. DO NOT call another tool - just answer the question."

/-- The follow-up message after a failure or an empty result
(agent.py lines 441-445). -/
def followupFailure (rendered : String) : String :=
  "Tool result:\n" ++ rendered ++
  "\n\nThe tool didn\x27t return useful data. Try a different approach or tool."

/-- The LLM backend boundary: conversation in, response text out, or a
raised transport error. -/
def LLMBackend : Type :=
  List Message → Except String String

/-- The body of the ReAct loop, by remaining iterations. Each iteration
makes exactly one model call (a raised transport error becomes the
error-describing answer); an extracted truthy tool call is dispatched and
recorded and the loop continues; otherwise the response text is the final
answer. Exhausted iterations hand over to the fallback synthesizer with no
further model call. Returns the response and the number of model calls. -/
def runLoop (llm : LLMBackend) (env : AgentEnv) (fuel iterationsDone : Nat)
    (messages : List Message) (tool_calls : List ToolCallRecord)
    (thinking : List String) (modelCalls : Nat) :
    Except String (AgentResponse × Nat) :=
  match fuel with
  | 0 => do
    let ans ← build_fallback_answer tool_calls
    pure ({ answer := ans, tool_calls := tool_calls, thinking := thinking,
            iterations := MAX_ITERATIONS }, modelCalls)
  | fuel + 1 =>
    match llm messages with
    | Except.error e =>
      Except.ok ({ answer := "Error communicating with LLM: " ++ e,
                   tool_calls := tool_calls, thinking := thinking,
                   iterations := iterationsDone + 1 }, modelCalls + 1)
    | Except.ok response_text =>
      let finalAnswer : Except String (AgentResponse × Nat) :=
        Except.ok ({ answer := response_text, tool_calls := tool_calls,
                     thinking := thinking ++ ["Generated final answer"],
                     iterations := iterationsDone + 1 }, modelCalls + 1)
      match parse_tool_call response_text with
      | Option.none => finalAnswer
      | Option.some v =>
        if v.truthy then do
          -- `tool_call.get(...)` outside any handler: raises on a non-dict
          let (tn, ta) ←
            match v with
            | PyVal.dict kvs =>
              Except.ok (PyVal.dGet kvs "tool" PyVal.none,
                         PyVal.dGet kvs "arguments" (PyVal.dict []))
            | _ => Except.error "AttributeError: object has no attribute get"
          let r ← execute_tool env v
          let record : ToolCallRecord :=
            { tool := tn, arguments := ta,
              result := if r.success then r.data else PyVal.none,
              error := if r.success then PyVal.none else
                (match r.error with
                 | Option.some e => PyVal.str e
                 | Option.none => PyVal.none),
              success := r.success }
          let thinking' := thinking ++
            ["Used " ++ pyStr tn ++ ": " ++ (if r.success then "success" else "failed")]
          let followup :=
            if r.success && r.data.truthy then followupSuccess r.to_string
            else followupFailure r.to_string
          let messages' := messages ++
            [{ role := "assistant", content := response_text },
             { role := "user", content := followup }]
          runLoop llm env fuel (iterationsDone + 1) messages' (tool_calls ++ [record])
            thinking' (modelCalls + 1)
        else finalAnswer

/-- Embedding of `NFLStatsAgent.run`: seed the conversation with the system
prompt and the question and run the bounded loop. -/
def NFLStatsAgent.run (llm : LLMBackend) (env : AgentEnv)
    (system_prompt question : String) : Except String (AgentResponse × Nat) :=
  runLoop llm env MAX_ITERATIONS 0
    [{ role := "system", content := system_prompt },
     { role := "user", content := question }]
    [] [] 0

/-! ## Shape predicates under which the fallback synthesizer cannot raise,
and concrete scenario objects used by the theorems below. -/

/-- A list result whose first element (the only one the synthesizer touches)
is a dict, when there is one. -/
def FirstElemDict (v : PyVal) : Prop :=
  match v with
  | PyVal.list (f :: _) => ∃ kvs, f = PyVal.dict kvs
  | _ => True

/-- A player-stats result whose truthy `summary` is a dict with a numeric
(or absent) `total_passing_yards`. -/
def PlayerStatsShape (v : PyVal) : Prop :=
  match v with
  | PyVal.dict rkvs =>
    (PyVal.dGet rkvs "summary" (PyVal.dict [])).truthy = true →
    ∃ skvs, PyVal.dGet rkvs "summary" (PyVal.dict []) = PyVal.dict skvs ∧
      (PyVal.dGet skvs "total_passing_yards" (PyVal.int 0)).isNumeric = true
  | _ => True

/-- The result shapes on one recorded tool call under which the fallback
synthesizer's branch for it cannot raise. Only successful records with
truthy results and one of the three rendered tool names are constrained. -/
def SafeRecord (r : ToolCallRecord) : Prop :=
  r.success = true → r.result.truthy = true →
    ((r.tool.eqStr "rankings" = true → FirstElemDict r.result) ∧
     (r.tool.eqStr "player_stats" = true → PlayerStatsShape r.result) ∧
     (r.tool.eqStr "sql_query" = true → FirstElemDict r.result))

/-- An environment whose external collaborators all fail: the backend
connection and the retrieval, news and eval oracles raise, and the
`player_games` table is empty. -/
def allErrorEnv : AgentEnv :=
  { db := fun _ _ => Except.error "database unavailable",
    table := [],
    retrieve := fun _ _ => Except.error "retrieval unavailable",
    news := fun _ _ _ _ => Except.error "news unavailable",
    evalOracle := fun _ => Except.error "eval unavailable" }

/-- The column list of the player-stats aggregate query. -/
def summaryCols : List String :=
  ["games_played", "games_with_stats", "avg_passing_yards", "total_passing_yards",
   "total_passing_tds", "total_interceptions", "avg_rushing_yards", "total_rushing_yards",
   "total_rushing_tds", "avg_receiving_yards", "total_receiving_yards", "total_receiving_tds"]

/-- The single row the aggregate query returns when no game matches:
`COUNT(*)` is 0 and every `SUM`/`AVG` is SQL NULL (Python `None`). -/
def nullSummaryRow : List PyVal :=
  [PyVal.int 0, PyVal.int 0, PyVal.none, PyVal.none, PyVal.none, PyVal.none,
   PyVal.none, PyVal.none, PyVal.none, PyVal.none, PyVal.none, PyVal.none]

/-- A DuckDB state in which the requested player has no recorded games: the
per-game query returns zero rows; the aggregate query (recognised by its
`COUNT(*)` select) returns its one row of NULL sums. -/
def noGamesDb : DBBackend := fun sql _ =>
  if strContainsSub sql "COUNT(*)" then Except.ok (summaryCols, [nullSummaryRow])
  else Except.ok ([], [])

/-- `allErrorEnv` with the no-games database wired in. -/
def noGamesEnv : AgentEnv :=
  { allErrorEnv with db := noGamesDb }

/-- A model reply carrying a well-formed fenced `player_stats` call. -/
def playerStatsFence : String :=
  "```json\n\x7b\"tool\": \"player_stats\", \"arguments\": \x7b\"player_name\": \"Zzz\"\x7d\x7d\n```"

/-- A model reply whose fenced JSON is a list, not an object. -/
def listFence : String :=
  "```json\n[1, 2]\n```"

/-- A model reply carrying a fenced call to a tool name that is not in the
registry. -/
def unknownToolFence : String :=
  "```json\n\x7b\"tool\": \"nope\", \"arguments\": \x7b\x7d\x7d\n```"

/-- Two-player `player_games` table used by the ranking theorems: player A
with two 150-yard games, player B with one 100-yard game. -/
def rankDemoTable : List GameRow :=
  [{ player_display_name := "A", position := "QB", team := "KC", season := 2024,
     season_type := "REG", stat := fun s => if s = "passing_yards" then 150 else 0 },
   { player_display_name := "A", position := "QB", team := "KC", season := 2024,
     season_type := "REG", stat := fun s => if s = "passing_yards" then 150 else 0 },
   { player_display_name := "B", position := "QB", team := "BUF", season := 2024,
     season_type := "REG", stat := fun s => if s = "passing_yards" then 100 else 0 }]

/-- The PyVal passed for an optional string argument: the string itself, or
Python `None` when absent. -/
def pyOfOptStr : Option String → PyVal
  | Option.some p => PyVal.str p
  | Option.none => PyVal.none

/-- A model reply whose only JSON content is a fenced object lacking a
`tool` key. -/
def fencedNonToolReply : String :=
  "```json\n\x7b\"player\": \"X\"\x7d\n```"

/-- A model reply whose only JSON content is a raw (unfenced) object lacking
a `tool` key. -/
def rawNonToolReply : String :=
  "\x7b\"player\": \"X\", \"yards\": 100\x7d"

/-- The record `run` appends for one dispatched tool call (agent.py lines
420-426), as a function of the parsed call dict and the dispatch result. -/
def recordOf (kvs : List (String × PyVal)) (r : ToolResult) : ToolCallRecord :=
  { tool := PyVal.dGet kvs "tool" PyVal.none,
    arguments := PyVal.dGet kvs "arguments" (PyVal.dict []),
    result := if r.success then r.data else PyVal.none,
    error := if r.success then PyVal.none else
      (match r.error with
       | Option.some e => PyVal.str e
       | Option.none => PyVal.none),
    success := r.success }

/-- The conclusion shape of `fallbackStep` on a safe record: it returns, and
any returned answer string is non-empty. -/
def StepOk (e : Except String (Option String)) : Prop :=
  ∃ o, e = Except.ok o ∧ ∀ s, o = Option.some s → s ≠ ""

/-! ## Helper lemmas -/

theorem str_data_append (a b : String) : (a ++ b).data = a.data ++ b.data := by
  cases a; cases b; rfl

theorem str_eq_empty_of_data {b : String} (h : b.data = []) : b = "" := by
  cases b with
  | mk d => subst h; rfl

theorem str_append_ne_empty_of_right {b : String} (a : String) (h : b ≠ "") :
    a ++ b ≠ "" := by
  intro hc
  apply h
  have hd : a.data ++ b.data = [] := by rw [← str_data_append, hc]
  exact str_eq_empty_of_data (List.append_eq_nil.mp hd).2

theorem findSubFrom_isSome_shift (cs needle : List Char) (i j : Nat) :
    (findSubFrom cs needle i).isSome = (findSubFrom cs needle j).isSome := by
  induction cs generalizing i j with
  | nil =>
    simp only [findSubFrom]
    split <;> rfl
  | cons c rest ih =>
    simp only [findSubFrom]
    split
    · rfl
    · exact ih (i + 1) (j + 1)

theorem findSubFrom_isSome_append (pre cs needle : List Char)
    (h : (findSubFrom cs needle 0).isSome = true) :
    (findSubFrom (pre ++ cs) needle 0).isSome = true := by
  induction pre with
  | nil => simpa using h
  | cons p ps ih =>
    simp only [List.cons_append, findSubFrom]
    split
    · rfl
    · rw [findSubFrom_isSome_shift _ _ _ 0]
      exact ih

theorem strContainsSub_append_left (a b t : String)
    (h : strContainsSub b t = true) : strContainsSub (a ++ b) t = true := by
  unfold strContainsSub at *
  rw [str_data_append]
  exact findSubFrom_isSome_append a.data b.data t.data h

theorem findCharFrom_eq_none (cs : List Char) (c : Char) (i : Nat)
    (h : ∀ d ∈ cs, d ≠ c) : findCharFrom cs c i = Option.none := by
  induction cs generalizing i with
  | nil => rfl
  | cons d rest ih =>
    simp only [findCharFrom]
    rw [if_neg (h d (by simp))]
    exact ih (i + 1) (fun x hx => h x (by simp [hx]))

/-! ## C1: the write-word safety gate of the structured-query tool -/

/-- C1: for every query string containing one of the write keywords as a
whole word (case-insensitively — exactly the condition `is_write_query`
embeds from `WRITE_PATTERNS`), `SQLQueryTool.execute` returns a failure
`ToolResult` carrying the permission-denied message and the backend is never
reached; for every other query string, execution proceeds to the backend. -/
theorem C1_safety_gate (backend : DBBackend) (sql : String) :
    (is_write_query sql = true →
      SQLQueryTool.execute backend (PyVal.str sql) =
        ({ success := false, data := PyVal.none, error := Option.some WRITE_BLOCK_MSG }, false)) ∧
    (is_write_query sql = false →
      (SQLQueryTool.execute backend (PyVal.str sql)).2 = true) := by
  constructor
  · intro h
    simp [SQLQueryTool.execute, execute_safe, h]
  · intro h
    cases hb : backend sql [] with
    | ok p =>
      cases p with
      | mk cols rows =>
        simp only [SQLQueryTool.execute, execute_safe, h, hb, Bool.false_eq_true, if_false]
        split <;> rfl
    | error e =>
      simp [SQLQueryTool.execute, execute_safe, h, hb]

/-- C1 witness: a blocked `DROP` query and an allowed `SELECT` query at a
concrete backend. -/
theorem C1_safety_gate_witness :
    SQLQueryTool.execute (fun _ _ => Except.ok ([], [])) (PyVal.str "DROP TABLE players") =
      ({ success := false, data := PyVal.none, error := Option.some WRITE_BLOCK_MSG }, false) ∧
    (SQLQueryTool.execute (fun _ _ => Except.ok ([], []))
      (PyVal.str "SELECT * FROM player_games")).2 = true :=
  ⟨(C1_safety_gate _ _).1 (by decide), (C1_safety_gate _ _).2 (by decide)⟩

/-! ## C7: explicit division-by-zero failures in the calculator -/

/-- C7: `divide` on any two-element list whose second element equals zero and
`percent_change` on any mapping whose `old` value (default 0) equals zero
return explicit failure results, with no exception; and concretely,
`divide [10, 0]` fails mentioning zero while `win_percentage` of 4 wins and
0 losses succeeds with `result = 100.0`. -/
theorem C7_calculator_zero_guards (oracle : PyVal → Except String PyVal) :
    (∀ a b : PyVal, b.eqZero = true →
      CalculatorTool.execute oracle (PyVal.str "divide") (PyVal.list [a, b]) =
        { success := false, data := PyVal.none, error := Option.some "Cannot divide by zero" }) ∧
    (∀ kvs : List (String × PyVal), (PyVal.dGet kvs "old" (PyVal.int 0)).eqZero = true →
      CalculatorTool.execute oracle (PyVal.str "percent_change") (PyVal.dict kvs) =
        { success := false, data := PyVal.none,
          error := Option.some "Cannot calculate percent change from 0" }) ∧
    CalculatorTool.execute oracle (PyVal.str "divide") (PyVal.list [PyVal.int 10, PyVal.int 0]) =
      { success := false, data := PyVal.none, error := Option.some "Cannot divide by zero" } ∧
    CalculatorTool.execute oracle (PyVal.str "win_percentage")
        (PyVal.dict [("wins", PyVal.int 4), ("losses", PyVal.int 0)]) =
      { success := true,
        data := PyVal.dict [("result", PyVal.float 100), ("operation", PyVal.str "win_percentage")],
        error := Option.none } := by
  refine ⟨?_, ?_, rfl, rfl⟩
  · intro a b h
    simp +decide [CalculatorTool.execute, CalculatorTool.body, pyLen, pyIndex, h,
      bind, Except.bind, pure, Except.pure]
  · intro kvs h
    simp +decide [CalculatorTool.execute, CalculatorTool.body, pyGetOn, h,
      bind, Except.bind, pure, Except.pure]

/-- C7 witness: the universal guards applied at `divide [7, 0.0]` and
`percent_change (old = 0, new = 5)`. -/
theorem C7_calculator_zero_guards_witness :
    CalculatorTool.execute (fun _ => Except.error "e") (PyVal.str "divide")
        (PyVal.list [PyVal.int 7, PyVal.float 0]) =
      { success := false, data := PyVal.none, error := Option.some "Cannot divide by zero" } ∧
    CalculatorTool.execute (fun _ => Except.error "e") (PyVal.str "percent_change")
        (PyVal.dict [("old", PyVal.int 0), ("new", PyVal.int 5)]) =
      { success := false, data := PyVal.none,
        error := Option.some "Cannot calculate percent change from 0" } :=
  ⟨(C7_calculator_zero_guards _).1 _ _ (by decide),
   (C7_calculator_zero_guards _).2.1 _ (by decide)⟩

/-! ## C8: the `expression` sandbox is escapable by attribute traversal -/

/-- C8 (refuting the claim as the code stands): name resolution is indeed
restricted — `open` raises a `NameError` — but evaluation of the input
`().__class__.__base__.__subclasses__()` walks attribute access on a literal
into the interpreter's object system and succeeds, reaching an
interpreter-internal value, which the claim asserts no input can do. -/
theorem C8_eval_sandbox_escape :
    pyEvalExpr 10 escapeExprAst =
      Except.ok (EvalVal.internal "class(tuple).__base__.__subclasses__()") ∧
    (pyEvalExpr 10 escapeExprAst).map EvalVal.isInternal = Except.ok true ∧
    pyEvalExpr 10 (PyExpr.name "open") =
      Except.error "NameError: name open is not defined" :=
  ⟨rfl, rfl, rfl⟩

/-! ## C10: the `sql`/`query` argument keys of the structured-query dispatch -/

/-- C10: dispatching `sql_query` passes
`arguments.get("sql") or arguments.get("query") or ""` to the tool: the
`sql` value when truthy, else the `query` value when truthy, else the empty
string. -/
theorem C10_sql_argument_keys (env : AgentEnv) (m : List (String × PyVal)) :
    execute_tool env
        (PyVal.dict [("tool", PyVal.str "sql_query"), ("arguments", PyVal.dict m)]) =
      Except.ok (SQLQueryTool.execute env.db (sqlArgOf m)).1 ∧
    ((PyVal.dGet m "sql" PyVal.none).truthy = true →
      sqlArgOf m = PyVal.dGet m "sql" PyVal.none) ∧
    ((PyVal.dGet m "sql" PyVal.none).truthy = false →
      (PyVal.dGet m "query" PyVal.none).truthy = true →
      sqlArgOf m = PyVal.dGet m "query" PyVal.none) ∧
    ((PyVal.dGet m "sql" PyVal.none).truthy = false →
      (PyVal.dGet m "query" PyVal.none).truthy = false →
      sqlArgOf m = PyVal.str "") := by
  refine ⟨rfl, ?_, ?_, ?_⟩
  · intro h
    simp [sqlArgOf, h]
  · intro h1 h2
    simp [sqlArgOf, h1, h2]
  · intro h1 h2
    simp [sqlArgOf, h1, h2]

/-- C10 witness: a falsy `sql` value falls back to the `query` key; both
keys missing yield the empty string. -/
theorem C10_sql_argument_keys_witness :
    sqlArgOf [("sql", PyVal.str ""), ("query", PyVal.str "SELECT 1")] =
      PyVal.dGet [("sql", PyVal.str ""), ("query", PyVal.str "SELECT 1")] "query" PyVal.none ∧
    sqlArgOf [("limit", PyVal.int 3)] = PyVal.str "" :=
  ⟨(C10_sql_argument_keys allErrorEnv _).2.2.1 (by decide) (by decide),
   (C10_sql_argument_keys allErrorEnv _).2.2.2 (by decide) (by decide)⟩

/-! ## C3: extractor behavior on JSON lacking a `tool` key -/

/-- C3 counterexample: for the fenced object `{"player": "X"}` — which has
no `tool` key — the extractor does not return nothing: strategy 1 returns
the parsed object as-is, contradicting the claim that it returns nothing
whether the object is fenced or raw. -/
theorem C3_fenced_nontool_counterexample :
    parse_tool_call fencedNonToolReply =
      Option.some (PyVal.dict [("player", PyVal.str "X")]) ∧
    parse_tool_call fencedNonToolReply ≠ Option.none := by
  refine ⟨rfl, ?_⟩
  intro hc
  rw [show parse_tool_call fencedNonToolReply =
    Option.some (PyVal.dict [("player", PyVal.str "X")]) from rfl] at hc
  exact Option.noConfusion hc

/-- C3 as amended: a raw (unfenced) brace-balanced object lacking a `tool`
key yields no tool call; a response with no ```json fence and no opening
brace yields no tool call; but a fenced block that parses is returned as
the call regardless of a `tool` key. -/
theorem C3_extractor_no_tool_key (t : String) :
    (∀ s kvs, fencedJsonContent t = Option.none →
      braceSlice t = Option.some s →
      jsonLoads s = Option.some (PyVal.dict kvs) →
      PyVal.hasKey kvs "tool" = false →
      parse_tool_call t = Option.none) ∧
    (fencedJsonContent t = Option.none →
      (∀ c ∈ t.data, c ≠ '{') →
      parse_tool_call t = Option.none) ∧
    (∀ c v, fencedJsonContent t = Option.some c →
      jsonLoads c = Option.some v →
      parse_tool_call t = Option.some v) := by
  refine ⟨?_, ?_, ?_⟩
  · intro s kvs h1 h2 h3 h4
    simp [parse_tool_call, rawJsonToolCall, h1, h2, h3, h4]
  · intro h1 h2
    have hb : braceSlice t = Option.none := by
      simp [braceSlice, findCharFrom_eq_none _ _ _ h2]
    simp [parse_tool_call, rawJsonToolCall, h1, hb]
  · intro c v h1 h2
    simp [parse_tool_call, h1, h2]

/-- C3 witness: a plain-text reply with no JSON-like substring yields no
call, and a raw non-`tool` object yields no call. -/
theorem C3_extractor_no_tool_key_witness :
    parse_tool_call "The leader was Joe Burrow with 4918 yards." = Option.none ∧
    parse_tool_call rawNonToolReply = Option.none :=
  ⟨(C3_extractor_no_tool_key _).2.1 rfl (by decide),
   (C3_extractor_no_tool_key _).1 rawNonToolReply
     [("player", PyVal.str "X"), ("yards", PyVal.int 100)] rfl rfl rfl rfl⟩

/-! ## C2: dispatch never raises; unknown tools fail listing the registry -/

/-- C2: for every tool name string and every argument value (any type,
including non-dicts, empty or unknown-keyed mappings), the dispatch returns
a `ToolResult` and never raises; and when the name is not in the registry
the result is the failure whose error names the unknown tool and contains
every known tool name. (Only string names are covered: an unhashable name —
a JSON list or dict — makes the real dispatch raise `TypeError` at the
membership test outside the `try`, which `execute_tool` models as
`Except.error`.) -/
theorem C2_dispatch_total (env : AgentEnv) (name : String) (args : PyVal) :
    (∃ r : ToolResult,
      execute_tool env (PyVal.dict [("tool", PyVal.str name), ("arguments", args)]) =
        Except.ok r) ∧
    ((KNOWN_TOOL_NAMES.any (fun k => (PyVal.str name).eqStr k)) = false →
      execute_tool env (PyVal.dict [("tool", PyVal.str name), ("arguments", args)]) =
        Except.ok
          { success := false, data := PyVal.none,
            error := Option.some ("Unknown tool: " ++ name ++ ". Available: " ++
              KNOWN_TOOLS_REPR) } ∧
      ∀ t ∈ KNOWN_TOOL_NAMES,
        strContainsSub ("Unknown tool: " ++ name ++ ". Available: " ++ KNOWN_TOOLS_REPR)
          t = true) := by
  constructor
  · unfold execute_tool
    dsimp only
    rw [show PyVal.dGet [("tool", PyVal.str name), ("arguments", args)] "tool" PyVal.none
      = PyVal.str name from rfl]
    dsimp only
    split
    · exact ⟨_, rfl⟩
    · exact ⟨_, rfl⟩
  · intro h
    constructor
    · unfold execute_tool
      dsimp only
      rw [show PyVal.dGet [("tool", PyVal.str name), ("arguments", args)] "tool" PyVal.none
        = PyVal.str name from rfl]
      dsimp only
      rw [h]
      rfl
    · intro t ht
      apply strContainsSub_append_left
      fin_cases ht <;> decide

/-- C2 witness: a tool call naming the unregistered tool `bogus`. -/
theorem C2_dispatch_total_witness :
    execute_tool allErrorEnv
        (PyVal.dict [("tool", PyVal.str "bogus"), ("arguments", PyVal.dict [])]) =
      Except.ok
        { success := false, data := PyVal.none,
          error := Option.some ("Unknown tool: bogus. Available: " ++ KNOWN_TOOLS_REPR) } ∧
    strContainsSub ("Unknown tool: bogus. Available: " ++ KNOWN_TOOLS_REPR) "rankings" = true :=
  ⟨((C2_dispatch_total allErrorEnv "bogus" (PyVal.dict [])).2 (by decide)).1,
   ((C2_dispatch_total allErrorEnv "bogus" (PyVal.dict [])).2 (by decide)).2
     "rankings" (by decide)⟩

/-! ## The fallback synthesizer on safe shapes -/

theorem str_append_ne_empty_of_left {a : String} (h : a ≠ "") (b : String) :
    a ++ b ≠ "" := by
  intro hc
  apply h
  have hd : a.data ++ b.data = [] := by rw [← str_data_append, hc]
  exact str_eq_empty_of_data (List.append_eq_nil.mp hd).1

theorem formatComma_ok_of_numeric {v : PyVal} (h : v.isNumeric = true) :
    ∃ s, formatComma v = Except.ok s := by
  cases v <;> simp_all [PyVal.isNumeric, formatComma]

theorem stepOk_none : StepOk (pure Option.none) :=
  ⟨Option.none, rfl, by simp⟩

theorem stepOk_some {s : String} (h : s ≠ "") : StepOk (pure (Option.some s)) :=
  ⟨Option.some s, rfl, by simpa using h⟩

theorem fallbackStep_ok_of_safe (tc : ToolCallRecord) (h : SafeRecord tc) :
    StepOk (fallbackStep tc) := by
  unfold fallbackStep
  by_cases hg : (!tc.success || !tc.result.truthy) = true
  · rw [if_pos hg]
    exact stepOk_none
  · rw [if_neg hg]
    have hg' := hg
    simp only [Bool.or_eq_true, Bool.not_eq_true', not_or, Bool.not_eq_false] at hg'
    obtain ⟨hs, ht⟩ := hg'
    obtain ⟨safeR, safeP, safeS⟩ := h hs ht
    by_cases h1 : tc.tool.eqStr "rankings" = true
    · rw [if_pos h1]
      have fr := safeR h1
      rcases hres : tc.result with _ | b | n | q | s | (_ | ⟨first, rest⟩) | kvs
      · exact stepOk_none
      · exact stepOk_none
      · exact stepOk_none
      · exact stepOk_none
      · exact stepOk_none
      · exact stepOk_none
      · rw [hres] at fr
        obtain ⟨fkvs, rfl⟩ := fr
        simp only [pyGetOn, bind, Except.bind]
        rcases hft : firstTotalStat fkvs with _ | ⟨k, v⟩
        · exact stepOk_none
        · have hv : v.isNumeric = true := by
            have h' := List.find?_some hft
            simp only [Bool.and_eq_true] at h'
            exact h'.2
          obtain ⟨fs, hfs⟩ := formatComma_ok_of_numeric hv
          simp only [hfs]
          apply stepOk_some
          repeat apply str_append_ne_empty_of_left
          decide
      · exact stepOk_none
    · rw [if_neg h1]
      by_cases h2 : tc.tool.eqStr "player_stats" = true
      · rw [if_pos h2]
        have fp := safeP h2
        rcases hres : tc.result with _ | b | n | q | s | xs | kvs
        · exact stepOk_none
        · exact stepOk_none
        · exact stepOk_none
        · exact stepOk_none
        · exact stepOk_none
        · exact stepOk_none
        · rw [hres] at fp
          dsimp only
          by_cases hsum : (PyVal.dGet kvs "summary" (PyVal.dict [])).truthy = true
          · obtain ⟨skvs, hsk, hnum⟩ := fp hsum
            rw [if_pos hsum, hsk]
            simp only [pyGetOn, bind, Except.bind, pyGtZero, hnum, if_true]
            by_cases hgt : ratLt 0 (PyVal.dGet skvs "total_passing_yards" (PyVal.int 0)).toRat = true
            · rw [if_pos hgt]
              obtain ⟨fs, hfs⟩ := formatComma_ok_of_numeric hnum
              simp only [hfs, bind, Except.bind]
              apply stepOk_some
              apply str_append_ne_empty_of_left
              apply str_append_ne_empty_of_left
              apply str_append_ne_empty_of_left
              apply str_append_ne_empty_of_left
              apply str_append_ne_empty_of_left
              apply str_append_ne_empty_of_left
              exact str_append_ne_empty_of_right _ (by decide)
            · rw [if_neg hgt]
              exact stepOk_none
          · rw [if_neg hsum]
            exact stepOk_none
      · rw [if_neg h2]
        by_cases h3 : tc.tool.eqStr "sql_query" = true
        · rw [if_pos h3]
          have fq := safeS h3
          rcases hres : tc.result with _ | b | n | q | s | (_ | ⟨first, rest⟩) | kvs
          · exact stepOk_none
          · exact stepOk_none
          · exact stepOk_none
          · exact stepOk_none
          · exact stepOk_none
          · exact stepOk_none
          · rw [hres] at fq
            obtain ⟨fkvs, rfl⟩ := fq
            dsimp only
            split
            · exact stepOk_none
            · apply stepOk_some
              repeat apply str_append_ne_empty_of_left
              decide
          · exact stepOk_none
        · rw [if_neg h3]
          exact stepOk_none

theorem fallbackLoop_ok_of_safe (tcs : List ToolCallRecord)
    (h : ∀ tc ∈ tcs, SafeRecord tc) :
    ∃ s, fallbackLoop tcs = Except.ok s ∧ s ≠ "" := by
  induction tcs with
  | nil => exact ⟨NO_CLEAR_ANSWER_MSG, rfl, by decide⟩
  | cons tc rest ih =>
    obtain ⟨o, ho, hne⟩ := fallbackStep_ok_of_safe tc (h tc (by simp))
    rcases o with _ | s
    · obtain ⟨s, hs, hsne⟩ := ih (fun x hx => h x (by simp [hx]))
      exact ⟨s, by simp [fallbackLoop, ho, bind, Except.bind, hs], hsne⟩
    · exact ⟨s, by simp [fallbackLoop, ho, bind, Except.bind, pure, Except.pure], hne s rfl⟩

theorem build_fallback_answer_ok_of_safe (tcs : List ToolCallRecord)
    (h : ∀ tc ∈ tcs, SafeRecord tc) :
    ∃ s, build_fallback_answer tcs = Except.ok s ∧ s ≠ "" := by
  unfold build_fallback_answer
  by_cases he : tcs.isEmpty = true
  · rw [if_pos he]
    exact ⟨NO_DATA_MSG, rfl, by decide⟩
  · rw [if_neg he]
    exact fallbackLoop_ok_of_safe tcs h

/-! ## C9: the fallback synthesizer and raise-freedom -/

/-- C9 counterexample: on a recorded successful rankings call whose result
list holds a non-dict value, the synthesizer raises (the `first.get` call),
contradicting the claim that it never raises for arbitrary values inside
list results. -/
theorem C9_fallback_raises_counterexample :
    build_fallback_answer
      [{ tool := PyVal.str "rankings", arguments := PyVal.dict [],
         result := PyVal.list [PyVal.int 42], error := PyVal.none, success := true }] =
      Except.error "AttributeError: object has no attribute get" := rfl

/-- C9 as amended: the synthesizer returns a string (never raises) on every
record sequence in which each successful truthy result is well-shaped for
its branch — rankings and raw-query list results head a dict, and a truthy
player-stats summary is a dict whose `total_passing_yards` is numeric or
absent — and on the empty sequence it returns the generic no-relevant-data
message. -/
theorem C9_fallback_no_raise_on_safe_shapes :
    (∀ tcs : List ToolCallRecord, (∀ tc ∈ tcs, SafeRecord tc) →
      ∃ s, build_fallback_answer tcs = Except.ok s) ∧
    build_fallback_answer [] = Except.ok NO_DATA_MSG := by
  constructor
  · intro tcs h
    obtain ⟨s, hs, _⟩ := build_fallback_answer_ok_of_safe tcs h
    exact ⟨s, hs⟩
  · rfl

/-- C9 witness: a failed record and an unrendered-tool record are safe, and
the synthesizer returns on them. -/
theorem C9_fallback_no_raise_witness :
    ∃ s, build_fallback_answer
      [{ tool := PyVal.str "sql_query", arguments := PyVal.dict [],
         result := PyVal.none, error := PyVal.str "Table not found", success := false },
       { tool := PyVal.str "calculator", arguments := PyVal.dict [],
         result := PyVal.dict [("result", PyVal.int 3)], error := PyVal.none, success := true }] =
      Except.ok s := by
  apply C9_fallback_no_raise_on_safe_shapes.1
  intro tc htc
  simp only [List.mem_cons, List.not_mem_nil, or_false] at htc
  rcases htc with h | h
  · subst h
    intro hsucc
    exact absurd hsucc (by decide)
  · subst h
    intro _ _
    exact ⟨fun hh => absurd hh (by decide), fun hh => absurd hh (by decide),
      fun hh => absurd hh (by decide)⟩

/-! ## C6: run can propagate an exception and return an empty answer -/

/-- C6 (refuting the claim as the code stands): for the model that always
replies with a fenced JSON list, the extractor returns the parsed list —
although its docstring promises a dict or `None` — and `run` then raises
`AttributeError` on `tool_call.get("tool")`; moreover a model replying the
empty string makes `run` return an empty `answer`. -/
theorem C6_run_crash_on_fenced_list :
    parse_tool_call listFence = Option.some (PyVal.list [PyVal.int 1, PyVal.int 2]) ∧
    NFLStatsAgent.run (fun _ => Except.ok listFence) allErrorEnv "sys" "q" =
      Except.error "AttributeError: object has no attribute get" ∧
    NFLStatsAgent.run (fun _ => Except.ok "") allErrorEnv "sys" "q" =
      Except.ok ({ answer := "", tool_calls := [],
                   thinking := ["Generated final answer"], iterations := 1 }, 1) :=
  ⟨rfl, rfl, rfl⟩

/-! ## C5: loop bound and fallback handover -/

theorem execute_tool_list_name_raises (env : AgentEnv) :
    execute_tool env (PyVal.dict [("tool", PyVal.list [PyVal.int 1]),
      ("arguments", PyVal.dict [])]) =
      Except.error "TypeError: unhashable type: \x27list\x27" := rfl

theorem execute_tool_dict_isOk (env : AgentEnv) (kvs : List (String × PyVal))
    (h : (PyVal.dGet kvs "tool" PyVal.none).hashable = true) :
    ∃ r, execute_tool env (PyVal.dict kvs) = Except.ok r := by
  unfold execute_tool
  dsimp only
  split
  · rename_i heq
    rw [heq] at h
    simp [PyVal.hashable] at h
  · rename_i heq
    rw [heq] at h
    simp [PyVal.hashable] at h
  · split
    · exact ⟨_, rfl⟩
    · exact ⟨_, rfl⟩

theorem runLoop_toolcalling_model (llm : LLMBackend) (env : AgentEnv)
    (hM : ∀ msgs, ∃ text kvs, llm msgs = Except.ok text ∧
      parse_tool_call text = Option.some (PyVal.dict kvs) ∧ kvs ≠ [] ∧
      (PyVal.dGet kvs "tool" PyVal.none).hashable = true)
    (hSafe : ∀ msgs text kvs r, llm msgs = Except.ok text →
      parse_tool_call text = Option.some (PyVal.dict kvs) →
      execute_tool env (PyVal.dict kvs) = Except.ok r →
      SafeRecord (recordOf kvs r)) :
    ∀ (fuel : Nat) (msgs : List Message) (tcs : List ToolCallRecord)
      (thinking : List String) (iterDone mc : Nat),
      (∀ tc ∈ tcs, SafeRecord tc) →
      ∃ resp, runLoop llm env fuel iterDone msgs tcs thinking mc =
          Except.ok (resp, mc + fuel) ∧
        resp.iterations = MAX_ITERATIONS ∧
        build_fallback_answer resp.tool_calls = Except.ok resp.answer ∧
        resp.answer ≠ "" := by
  intro fuel
  induction fuel with
  | zero =>
    intro msgs tcs thinking iterDone mc hsafe
    obtain ⟨s, hbf, hne⟩ := build_fallback_answer_ok_of_safe tcs hsafe
    refine ⟨{ answer := s, tool_calls := tcs, thinking := thinking,
              iterations := MAX_ITERATIONS }, ?_, rfl, hbf, hne⟩
    simp [runLoop, hbf, bind, Except.bind, pure, Except.pure]
  | succ n ih =>
    intro msgs tcs thinking iterDone mc hsafe
    obtain ⟨text, kvs, hllm, hparse, hkne, hhash⟩ := hM msgs
    obtain ⟨r, hr⟩ := execute_tool_dict_isOk env kvs hhash
    have hrec : SafeRecord (recordOf kvs r) := hSafe msgs text kvs r hllm hparse hr
    rcases kvs with _ | ⟨kv0, krest⟩
    · exact absurd rfl hkne
    · have hsafe2 : ∀ tc ∈ tcs ++ [recordOf (kv0 :: krest) r], SafeRecord tc := by
        intro tc htc
        rcases List.mem_append.mp htc with hin | hin
        · exact hsafe tc hin
        · rw [List.mem_singleton.mp hin]
          exact hrec
      unfold runLoop
      rw [hllm]
      simp only [hparse, bind, Except.bind, hr]
      dsimp only [PyVal.truthy, List.isEmpty]
      rw [if_pos (show (!false) = true from rfl)]
      have harith : mc + (n + 1) = mc + 1 + n := by omega
      rw [harith]
      exact ih _ (tcs ++ [recordOf (kv0 :: krest) r]) _ (iterDone + 1) (mc + 1) hsafe2

set_option maxRecDepth 100000 in
set_option maxHeartbeats 4000000 in
/-- C5 counterexample: a model that always replies with a well-formed,
parseable `player_stats` tool call, against a reachable database state (the
requested player has no games, so the aggregate row carries NULL sums),
makes `run` raise a `TypeError` inside the fallback synthesizer at the
iteration ceiling instead of returning a fallback answer. -/
theorem C5_ceiling_crash_counterexample :
    parse_tool_call playerStatsFence =
      Option.some (PyVal.dict
        [("tool", PyVal.str "player_stats"),
         ("arguments", PyVal.dict [("player_name", PyVal.str "Zzz")])]) ∧
    NFLStatsAgent.run (fun _ => Except.ok playerStatsFence) noGamesEnv "sys" "q" =
      Except.error "TypeError: unorderable operand for > with int" := by
  constructor
  · rfl
  · rfl

/-- C5 as amended: for a model that always replies with a parseable (dict,
non-empty) tool call whose `tool` value is hashable (an unhashable `tool`
value — a JSON list or dict — would instead raise `TypeError` at the
dispatch membership test), provided every recorded result is fallback-safe
(`SafeRecord`), `run` makes exactly `MAX_ITERATIONS` model invocations and
returns at the ceiling with a non-empty answer computed by the fallback
synthesizer from the recorded tool calls alone; and for a model that always
replies with plain text carrying no structured call, `run` returns on
iteration 1 with that text as the answer and no tool calls. -/
theorem C5_run_iteration_bound :
    (∀ (llm : LLMBackend) (env : AgentEnv) (sys q : String),
      (∀ msgs, ∃ text kvs, llm msgs = Except.ok text ∧
        parse_tool_call text = Option.some (PyVal.dict kvs) ∧ kvs ≠ [] ∧
        (PyVal.dGet kvs "tool" PyVal.none).hashable = true) →
      (∀ msgs text kvs r, llm msgs = Except.ok text →
        parse_tool_call text = Option.some (PyVal.dict kvs) →
        execute_tool env (PyVal.dict kvs) = Except.ok r →
        SafeRecord (recordOf kvs r)) →
      ∃ resp, NFLStatsAgent.run llm env sys q = Except.ok (resp, MAX_ITERATIONS) ∧
        resp.iterations = MAX_ITERATIONS ∧
        build_fallback_answer resp.tool_calls = Except.ok resp.answer ∧
        resp.answer ≠ "") ∧
    (∀ (llm : LLMBackend) (env : AgentEnv) (sys q : String) (text : String),
      llm [{ role := "system", content := sys }, { role := "user", content := q }] =
        Except.ok text →
      parse_tool_call text = Option.none →
      NFLStatsAgent.run llm env sys q =
        Except.ok ({ answer := text, tool_calls := [],
                     thinking := ["Generated final answer"], iterations := 1 }, 1)) := by
  constructor
  · intro llm env sys q hM hSafe
    have h := runLoop_toolcalling_model llm env hM hSafe MAX_ITERATIONS
      [{ role := "system", content := sys }, { role := "user", content := q }]
      [] [] 0 0 (by intro tc htc; exact absurd htc (List.not_mem_nil tc))
    simpa [NFLStatsAgent.run] using h
  · intro llm env sys q text hllm hparse
    unfold NFLStatsAgent.run runLoop
    rw [hllm]
    simp [hparse, MAX_ITERATIONS]

/-- C5 witness: the model always calling an unregistered tool against the
all-failing environment — every record is a failed call, hence safe — hits
the ceiling with a non-empty fallback answer; and the plain-text model
returns immediately. -/
theorem C5_run_iteration_bound_witness :
    (∃ resp, NFLStatsAgent.run (fun _ => Except.ok unknownToolFence) allErrorEnv "s" "q" =
        Except.ok (resp, MAX_ITERATIONS) ∧
      resp.iterations = MAX_ITERATIONS ∧
      build_fallback_answer resp.tool_calls = Except.ok resp.answer ∧
      resp.answer ≠ "") ∧
    NFLStatsAgent.run (fun _ => Except.ok "It was Joe.") allErrorEnv "s" "q" =
      Except.ok ({ answer := "It was Joe.", tool_calls := [],
                   thinking := ["Generated final answer"], iterations := 1 }, 1) := by
  constructor
  · apply C5_run_iteration_bound.1
    · intro msgs
      exact ⟨unknownToolFence,
        [("tool", PyVal.str "nope"), ("arguments", PyVal.dict [])], rfl, rfl,
        List.cons_ne_nil _ _, rfl⟩
    · intro msgs text kvs r h1 h2 h3
      cases h1
      have h2x : Option.some (PyVal.dict [("tool", PyVal.str "nope"),
          ("arguments", PyVal.dict [])]) = Option.some (PyVal.dict kvs) :=
        (show parse_tool_call unknownToolFence = Option.some (PyVal.dict
          [("tool", PyVal.str "nope"), ("arguments", PyVal.dict [])]) from rfl).symm.trans h2
      obtain rfl : [("tool", PyVal.str "nope"), ("arguments", PyVal.dict [])] = kvs := by
        injection h2x with hh
        injection hh with hk
      have h3x : Except.ok (ToolResult.mk false PyVal.none
          (Option.some ("Unknown tool: nope. Available: " ++ KNOWN_TOOLS_REPR))) =
          Except.ok r :=
        (show execute_tool allErrorEnv (PyVal.dict
            [("tool", PyVal.str "nope"), ("arguments", PyVal.dict [])]) =
          Except.ok (ToolResult.mk false PyVal.none
            (Option.some ("Unknown tool: nope. Available: " ++ KNOWN_TOOLS_REPR)))
          from rfl).symm.trans h3
      obtain rfl : ToolResult.mk false PyVal.none
          (Option.some ("Unknown tool: nope. Available: " ++ KNOWN_TOOLS_REPR)) = r := by
        injection h3x with hk
      intro hsucc
      exact absurd hsucc (by decide)
  · exact C5_run_iteration_bound.2 _ _ _ _ _ rfl rfl

/-! ## C4: sorting and pipeline lemmas, rank-key naming -/

theorem mem_insertLe {α : Type} (le : α → α → Bool) (a x : α) (l : List α) :
    x ∈ insertLe le a l ↔ x = a ∨ x ∈ l := by
  induction l with
  | nil => simp [insertLe]
  | cons b bs ih =>
    simp only [insertLe]
    split
    · simp [List.mem_cons]
    · simp only [List.mem_cons, ih]
      tauto

theorem insertLe_perm {α : Type} (le : α → α → Bool) (a : α) (l : List α) :
    (insertLe le a l).Perm (a :: l) := by
  induction l with
  | nil => exact List.Perm.refl _
  | cons b bs ih =>
    simp only [insertLe]
    split
    · exact List.Perm.refl _
    · exact (List.Perm.cons b ih).trans (List.Perm.swap a b bs)

theorem pairwise_insertLe {α : Type} (le : α → α → Bool)
    (htotal : ∀ a b, le a b = true ∨ le b a = true)
    (htrans : ∀ a b c, le a b = true → le b c = true → le a c = true)
    (a : α) (l : List α) (h : l.Pairwise (fun x y => le x y = true)) :
    (insertLe le a l).Pairwise (fun x y => le x y = true) := by
  induction l with
  | nil => simp [insertLe]
  | cons b bs ih =>
    obtain ⟨hb, hbs⟩ := List.pairwise_cons.mp h
    simp only [insertLe]
    split
    · rename_i hab
      refine List.Pairwise.cons ?_ h
      intro y hy
      rcases List.mem_cons.mp hy with rfl | hy
      · exact hab
      · exact htrans a b y hab (hb y hy)
    · rename_i hab
      have hba : le b a = true := by
        rcases htotal a b with hx | hx
        · exact absurd hx hab
        · exact hx
      refine List.Pairwise.cons ?_ (ih hbs)
      intro y hy
      rcases (mem_insertLe le a y bs).mp hy with rfl | hy
      · exact hba
      · exact hb y hy

theorem sortLe_perm {α : Type} (le : α → α → Bool) (l : List α) :
    (sortLe le l).Perm l := by
  induction l with
  | nil => exact List.Perm.refl _
  | cons a as ih =>
    exact (insertLe_perm le a (sortLe le as)).trans (List.Perm.cons a ih)

theorem sortLe_pairwise {α : Type} (le : α → α → Bool)
    (htotal : ∀ a b, le a b = true ∨ le b a = true)
    (htrans : ∀ a b c, le a b = true → le b c = true → le a c = true)
    (l : List α) :
    (sortLe le l).Pairwise (fun x y => le x y = true) := by
  induction l with
  | nil => exact List.Pairwise.nil
  | cons a as ih => exact pairwise_insertLe le htotal htrans a (sortLe le as) ih

theorem rankPipeline_length_le (table : List GameRow) (stat : String) (season : Int)
    (stype : String) (pos : Option String) (order : String) (ming : Int) (limit : Nat) :
    (rankPipeline table stat season stype pos order ming limit).length ≤ limit :=
  List.length_take_le _ _

theorem rankPipeline_mem (table : List GameRow) (stat : String) (season : Int)
    (stype : String) (pos : Option String) (order : String) (ming : Int) (limit : Nat)
    (a : AggRow) (ha : a ∈ rankPipeline table stat season stype pos order ming limit) :
    ((a.games : Int) ≥ ming ∧ a.total > 0) ∧
    a.total = ((rowsOfKey (rankFiltered table season stype pos)
      (a.player, a.position, a.team)).map (fun r => r.stat stat)).sum ∧
    a.games = (rowsOfKey (rankFiltered table season stype pos)
      (a.player, a.position, a.team)).length := by
  unfold rankPipeline at ha
  have h1 := List.take_subset _ _ ha
  have h2 := ((sortLe_perm _ _).mem_iff).mp h1
  unfold rankKept at h2
  obtain ⟨hmem, hpred⟩ := List.mem_filter.mp h2
  unfold rankAggs at hmem
  obtain ⟨k, hk, rfl⟩ := List.mem_map.mp hmem
  rcases k with ⟨kp, kq, kt⟩
  refine ⟨?_, rfl, rfl⟩
  simp only [Bool.and_eq_true, decide_eq_true_eq, ge_iff_le] at hpred
  exact ⟨hpred.1, hpred.2⟩

theorem rankPipeline_sorted_asc (table : List GameRow) (stat : String) (season : Int)
    (stype : String) (pos : Option String) (ming : Int) (limit : Nat) :
    (rankPipeline table stat season stype pos "asc" ming limit).Pairwise
      (fun a b => a.total ≤ b.total) := by
  unfold rankPipeline
  apply List.Pairwise.sublist (List.take_sublist _ _)
  simp only [if_pos rfl]
  have h := sortLe_pairwise (fun a b : AggRow => a.total ≤ b.total)
    (by intro a b; simp; omega)
    (by intro a b c; simp; omega)
    (rankKept table stat season stype pos ming)
  exact h.imp (by intro a b hab; simpa using hab)

theorem rankPipeline_sorted_desc (table : List GameRow) (stat : String) (season : Int)
    (stype : String) (pos : Option String) (ming : Int) (limit : Nat) :
    (rankPipeline table stat season stype pos "desc" ming limit).Pairwise
      (fun a b => b.total ≤ a.total) := by
  unfold rankPipeline
  apply List.Pairwise.sublist (List.take_sublist _ _)
  rw [if_neg (by decide)]
  have h := sortLe_pairwise (fun a b : AggRow => b.total ≤ a.total)
    (by intro a b; simp; omega)
    (by intro a b c; simp; omega)
    (rankKept table stat season stype pos ming)
  exact h.imp (by intro a b hab; simpa using hab)

theorem rankPipeline_complete (table : List GameRow) (stat : String) (season : Int)
    (stype : String) (pos : Option String) (order : String) (ming : Int) (limit : Nat)
    (hlen : (rankKept table stat season stype pos ming).length ≤ limit) :
    (rankPipeline table stat season stype pos order ming limit).Perm
      (rankKept table stat season stype pos ming) := by
  unfold rankPipeline
  rw [List.take_of_length_le]
  · exact sortLe_perm _ _
  · rw [(sortLe_perm _ _).length_eq]
    exact hlen

theorem rankings_execute_str (table : List GameRow) (stat : String)
    (hstat : stat ∈ valid_stats) (season : Int) (pos : Option String)
    (hpos : ∀ p, pos = Option.some p → p ≠ "") (limit : Nat)
    (stype order : String) (horder : order = "asc" ∨ order = "desc") (ming : Int) :
    RankingsTool.execute table (PyVal.str stat) (PyVal.int season) (pyOfOptStr pos)
      (PyVal.int (limit : Int)) (PyVal.str stype) (PyVal.str order) (PyVal.int ming) =
    { success := true,
      data := PyVal.list ((rankPipeline table stat season (strUpper stype)
        (pos.map strUpper) order ming limit).enum.map
        (fun p => rankRowDict stat
          (if order = "desc" then "rank" else "worst_rank") p.2 (p.1 + 1))),
      error := Option.none } := by
  have hany : valid_stats.any (fun s => PyVal.eqStr (PyVal.str stat) s) = true := by
    rw [List.any_eq_true]
    exact ⟨stat, hstat, by simp [PyVal.eqStr]⟩
  have hlim : ¬ ((limit : Int) < 0) := by omega
  have hl1 : strLower "asc" = "asc" := by decide
  have hl2 : strLower "desc" = "desc" := by decide
  rcases horder with rfl | rfl <;> rcases pos with _ | p
  · unfold RankingsTool.execute
    simp +decide [hany, hl1, hl2, pyStr, pyLower, pyUpper, pyOfOptStr, PyVal.truthy,
      bind, Except.bind, pure, Except.pure, if_neg hlim, Int.toNat_natCast]
  · have hp : p ≠ "" := hpos p rfl
    unfold RankingsTool.execute
    simp +decide [hany, hl1, hl2, pyStr, pyLower, pyUpper, pyOfOptStr, PyVal.truthy, hp,
      bind, Except.bind, pure, Except.pure, if_neg hlim, Int.toNat_natCast]
  · unfold RankingsTool.execute
    simp +decide [hany, hl1, hl2, pyStr, pyLower, pyUpper, pyOfOptStr, PyVal.truthy,
      bind, Except.bind, pure, Except.pure, if_neg hlim, Int.toNat_natCast]
  · have hp : p ≠ "" := hpos p rfl
    unfold RankingsTool.execute
    simp +decide [hany, hl1, hl2, pyStr, pyLower, pyUpper, pyOfOptStr, PyVal.truthy, hp,
      bind, Except.bind, pure, Except.pure, if_neg hlim, Int.toNat_natCast]

/-- C4 counterexample: the rank key is NOT named `rank` for ascending order.
On a concrete three-game table (player A: two 150-yard games; player B: one
100-yard game), an ascending `passing_yards` ranking for 2024 REG with
`min_games = 1` succeeds, orders B before A, but names the rank key
`worst_rank` in every output row; the first output row has no `rank` key at
all. -/
theorem C4_asc_rank_key_counterexample :
    (RankingsTool.execute rankDemoTable (PyVal.str "passing_yards") (PyVal.int 2024)
      PyVal.none (PyVal.int 10) (PyVal.str "REG") (PyVal.str "asc") (PyVal.int 1) =
    { success := true,
      data := PyVal.list
        [PyVal.dict [("player", PyVal.str "B"), ("position", PyVal.str "QB"),
          ("team", PyVal.str "BUF"), ("total_passing_yards", PyVal.int 100),
          ("games", PyVal.int 1), ("worst_rank", PyVal.int 1)],
         PyVal.dict [("player", PyVal.str "A"), ("position", PyVal.str "QB"),
          ("team", PyVal.str "KC"), ("total_passing_yards", PyVal.int 300),
          ("games", PyVal.int 2), ("worst_rank", PyVal.int 2)]],
      error := Option.none }) ∧
    PyVal.hasKey [("player", PyVal.str "B"), ("position", PyVal.str "QB"),
      ("team", PyVal.str "BUF"), ("total_passing_yards", PyVal.int 100),
      ("games", PyVal.int 1), ("worst_rank", PyVal.int 1)] "rank" = false :=
  ⟨rfl, rfl⟩

/-- C4 (amended): for every table, valid stat, season, optional non-empty
position filter, limit, order direction in \x7basc, desc\x7d and min_games,
the ranking tool succeeds and returns exactly the relational pipeline:
filter by season/season-type/position, group by (player, position, team),
sum the stat and count games per group, keep exactly the groups with
`count >= min_games` and `sum(stat) > 0` (both orders), sort by the summed
stat in the requested direction, truncate to `limit`, and attach a dense
1-based rank in final order — under the key `rank` for descending order but
`worst_rank` for ascending order (the spec says `rank` for both). The
conjuncts: (1) the exact output value, (2) at most `limit` rows, (3)/(4)
sortedness in the requested direction, (5) the HAVING filter and the
per-group sum/count for every output row, (6) the i-th output row carries
rank i+1, (7) when the kept groups fit in `limit` the output is a
permutation of them (nothing eligible is dropped). -/
theorem C4_rankings_pipeline (table : List GameRow) (stat : String) (season : Int)
    (pos : Option String) (limit : Nat) (stype order : String) (ming : Int)
    (hstat : stat ∈ valid_stats)
    (horder : order = "asc" ∨ order = "desc")
    (hpos : ∀ p, pos = Option.some p → p ≠ "") :
    RankingsTool.execute table (PyVal.str stat) (PyVal.int season) (pyOfOptStr pos)
      (PyVal.int (limit : Int)) (PyVal.str stype) (PyVal.str order) (PyVal.int ming) =
    { success := true,
      data := PyVal.list ((rankPipeline table stat season (strUpper stype)
        (pos.map strUpper) order ming limit).enum.map
        (fun p => rankRowDict stat
          (if order = "desc" then "rank" else "worst_rank") p.2 (p.1 + 1))),
      error := Option.none } ∧
    (rankPipeline table stat season (strUpper stype) (pos.map strUpper)
      order ming limit).length ≤ limit ∧
    (order = "asc" → (rankPipeline table stat season (strUpper stype) (pos.map strUpper)
      order ming limit).Pairwise (fun a b => a.total ≤ b.total)) ∧
    (order = "desc" → (rankPipeline table stat season (strUpper stype) (pos.map strUpper)
      order ming limit).Pairwise (fun a b => b.total ≤ a.total)) ∧
    (∀ a ∈ rankPipeline table stat season (strUpper stype) (pos.map strUpper)
        order ming limit,
      ((a.games : Int) ≥ ming ∧ a.total > 0) ∧
      a.total = ((rowsOfKey (rankFiltered table season (strUpper stype) (pos.map strUpper))
        (a.player, a.position, a.team)).map (fun r => r.stat stat)).sum ∧
      a.games = (rowsOfKey (rankFiltered table season (strUpper stype) (pos.map strUpper))
        (a.player, a.position, a.team)).length) ∧
    (∀ i, ∀ hi : i < (rankPipeline table stat season (strUpper stype) (pos.map strUpper)
        order ming limit).length,
      ((rankPipeline table stat season (strUpper stype) (pos.map strUpper)
        order ming limit).enum.map (fun p => rankRowDict stat
          (if order = "desc" then "rank" else "worst_rank") p.2 (p.1 + 1)))[i]? =
      Option.some (rankRowDict stat (if order = "desc" then "rank" else "worst_rank")
        ((rankPipeline table stat season (strUpper stype) (pos.map strUpper)
          order ming limit).get ⟨i, hi⟩) (i + 1))) ∧
    ((rankKept table stat season (strUpper stype) (pos.map strUpper) ming).length ≤ limit →
      (rankPipeline table stat season (strUpper stype) (pos.map strUpper)
        order ming limit).Perm
      (rankKept table stat season (strUpper stype) (pos.map strUpper) ming)) := by
  refine ⟨rankings_execute_str table stat hstat season pos hpos limit stype order horder ming,
    rankPipeline_length_le table stat season (strUpper stype) (pos.map strUpper) order ming limit,
    ?_, ?_, ?_, ?_, ?_⟩
  · intro ho
    subst ho
    exact rankPipeline_sorted_asc table stat season (strUpper stype) (pos.map strUpper) ming limit
  · intro ho
    subst ho
    exact rankPipeline_sorted_desc table stat season (strUpper stype) (pos.map strUpper) ming limit
  · intro a ha
    exact rankPipeline_mem table stat season (strUpper stype) (pos.map strUpper)
      order ming limit a ha
  · intro i hi
    simp [List.getElem?_map, List.getElem?_enum, List.getElem?_eq_getElem hi]
  · intro hlen
    exact rankPipeline_complete table stat season (strUpper stype) (pos.map strUpper)
      order ming limit hlen

/-- Witness for C4 at the spec example shape: a limit-1 descending
`passing_yards` query on the concrete demo table yields the single row of
the top player A with `rank` 1 and `total_passing_yards` 300. -/
theorem C4_rankings_pipeline_witness :
    RankingsTool.execute rankDemoTable (PyVal.str "passing_yards") (PyVal.int 2024)
      (pyOfOptStr (Option.some "QB")) (PyVal.int ((1 : Nat) : Int)) (PyVal.str "REG")
      (PyVal.str "desc") (PyVal.int 1) =
    { success := true,
      data := PyVal.list [PyVal.dict
        [("player", PyVal.str "A"), ("position", PyVal.str "QB"),
         ("team", PyVal.str "KC"), ("total_passing_yards", PyVal.int 300),
         ("games", PyVal.int 2), ("rank", PyVal.int 1)]],
      error := Option.none } :=
  ((C4_rankings_pipeline rankDemoTable "passing_yards" 2024 (Option.some "QB") 1 "REG"
      "desc" 1 (by decide) (Or.inr rfl)
      (fun p hp => by injection hp with h; subst h; decide)).1).trans rfl
